import Mathlib

/-! MAC context lifecycle (`mac_init_api.c`)

A shallow embedding of `mac_start`, `mac_stop`, `mac_open` and `mac_close`
together with the two allocation helpers `mac_allocate_context_buffer` and
`mac_free_context_buffer`.

Conventions of the embedding:

* pointers are natural numbers, `0` is `NULL`;
* the context block is a record holding the fields this file reads or
  writes; everything else the collaborators keep (reference counts, the
  configuration store, the engine's own state, the remaining context fields)
  lives in an abstract external state `E`;
* the functions defined in other translation units (`pe_open`, `cfg_init`,
  `wlan_objmgr_psoc_try_get_ref`, ...) are parameters, gathered in
  `Collaborators`; those that receive the context pointer may rewrite the
  block, the others only see the external state (`global_mac_context` is
  `static`, so nothing else can reach it);
* every call leaving a lifecycle function is appended to `World.calls`, so
  that the order of calls can be stated.
-/

namespace MacInit

/-- The `QDF_STATUS` enumeration: the three enumerators `mac_init_api.c`
names, and a carrier for every other enumerator a collaborator may return. -/
inductive QDF_STATUS where
  | QDF_STATUS_SUCCESS
  | QDF_STATUS_E_NOMEM
  | QDF_STATUS_E_FAILURE
  | QDF_STATUS_E_OTHER (code : Nat)
  deriving DecidableEq, Repr

open QDF_STATUS

/-- Modelled from the spec: the test `QDF_IS_STATUS_ERROR(status)`, whose
definition is in a header outside this file.  The spec has the acquisition
either succeed or fail, so every status other than `QDF_STATUS_SUCCESS` is an
error. -/
def QDF_IS_STATUS_ERROR (status : QDF_STATUS) : Bool :=
  decide (status ≠ QDF_STATUS_SUCCESS)

/-- Lower end of the host range of management sequence numbers; the comment
in `mac_open` reads "FW: 0 to 2047 and Host: 2048 to 4095". -/
def WLAN_HOST_SEQ_NUM_MIN : Nat := 2048

/-- Address of the statically allocated `global_mac_context` object (static
strategy).  Only its being non-null matters. -/
def STATIC_CONTEXT_ADDR : Nat := 1

/-- Build-time constants that come from headers outside this file. -/
structure Build where
  /-- whether `WLAN_ALLOCATE_GLOBAL_BUFFERS_DYNAMICALLY` is defined -/
  WLAN_ALLOCATE_GLOBAL_BUFFERS_DYNAMICALLY : Bool
  /-- the enumerator `QDF_DRIVER_TYPE_MFG` -/
  QDF_DRIVER_TYPE_MFG : Nat
  /-- the constant `DEF_HE_AUTO_SGI_LTF` -/
  DEF_HE_AUTO_SGI_LTF : Nat
  /-- offset of the member `cfg` inside `struct wlan_mlme_psoc_obj` -/
  offsetof_cfg : Nat

/-- The fields of `tAniSirGlobal` that `mac_init_api.c` reads or writes. -/
structure tAniSirGlobal where
  hdd_handle : Nat
  psoc : Nat
  mlme_cfg : Nat
  pdev : Nat
  gDriverType : Nat
  mgmtSeqNum : Nat
  he_sgi_ltf_cfg_bit_mask : Nat
  is_usr_cfg_amsdu_enabled : Bool
  deriving DecidableEq, Repr

/-- The field of `struct cds_config_info` that `mac_open` reads. -/
structure cds_config_info where
  driver_type : Nat
  deriving DecidableEq, Repr

/-- The field of `struct mac_start_params` that `mac_start` reads. -/
structure mac_start_params where
  driver_type : Nat
  deriving DecidableEq, Repr

/-- One call leaving the lifecycle functions, with its pointer arguments and,
where the caller looks at it, the value it returned. -/
inductive Call where
  | mac_allocate_context_buffer (ret : Nat)
  | mac_free_context_buffer
  | wlan_objmgr_psoc_try_get_ref (psoc : Nat) (ret : QDF_STATUS)
  | wlan_objmgr_psoc_release_ref (psoc : Nat)
  | wlan_objmgr_pdev_release_ref (pdev : Nat)
  | mlme_get_psoc_obj (psoc : Nat) (ret : Nat)
  | cfg_init (mac : Nat) (ret : QDF_STATUS)
  | cfg_de_init (mac : Nat)
  | cfg_cleanup (mac : Nat)
  | sys_init_globals (mac : Nat)
  | pe_open (mac : Nat) (ret : QDF_STATUS)
  | pe_close (mac : Nat)
  | pe_start (mac : Nat) (ret : QDF_STATUS)
  | pe_stop (mac : Nat)
  deriving DecidableEq, Repr

/-- What a collaborator that received the context pointer hands back: its
status, the context block as it left it, and its own state. -/
structure Effect (E : Type) where
  status : QDF_STATUS
  ctx : tAniSirGlobal
  ext : E

/-- What `qdf_mem_malloc` hands back: the pointer (`0` on failure), the
contents of the fresh block, and the allocator's state. -/
structure Alloc (E : Type) where
  ptr : Nat
  block : tAniSirGlobal
  ext : E

/-- The functions `mac_init_api.c` calls and does not define. -/
structure Collaborators (E : Type) where
  qdf_mem_malloc : E → Alloc E
  qdf_mem_free : Nat → E → E
  wlan_objmgr_psoc_try_get_ref : Nat → E → QDF_STATUS × E
  wlan_objmgr_psoc_release_ref : Nat → E → E
  wlan_objmgr_pdev_release_ref : Nat → E → E
  mlme_get_psoc_obj : Nat → E → Nat × E
  cfg_init : Nat → tAniSirGlobal → E → Effect E
  cfg_de_init : Nat → tAniSirGlobal → E → Effect E
  cfg_cleanup : Nat → tAniSirGlobal → E → Effect E
  sys_init_globals : Nat → tAniSirGlobal → E → Effect E
  pe_open : Nat → cds_config_info → tAniSirGlobal → E → Effect E
  pe_close : Nat → tAniSirGlobal → E → Effect E
  pe_start : Nat → tAniSirGlobal → E → Effect E
  pe_stop : Nat → tAniSirGlobal → E → Effect E

/-- The state the lifecycle functions run in. -/
structure World (E : Type) where
  /-- dynamic strategy: the pointer variable `global_mac_context` -/
  global_mac_context_ptr : Nat
  /-- contents of the context block (static strategy: the object
  `global_mac_context`; dynamic strategy: the block the pointer refers to) -/
  global_mac_context : tAniSirGlobal
  /-- state of the collaborators -/
  ext : E
  /-- calls made so far, oldest first -/
  calls : List Call

/-- Outcome of a lifecycle function: the status it returns, or undefined
behaviour (a pointer that does not refer to a live object is dereferenced). -/
inductive Ret where
  | status (s : QDF_STATUS)
  | undefined
  deriving DecidableEq, Repr

/-- Outcome of `mac_open`: the return value, the contents of `*pHalHandle`
afterwards (`none` when `pHalHandle` is `NULL`), and the state. -/
structure OpenResult (E : Type) where
  ret : Ret
  hal : Option Nat
  world : World E

/-- Address a valid context handle has in state `w`. -/
def context_addr {E : Type} (b : Build) (w : World E) : Nat :=
  if b.WLAN_ALLOCATE_GLOBAL_BUFFERS_DYNAMICALLY then w.global_mac_context_ptr
  else STATIC_CONTEXT_ADDR

/-- Record a call. -/
def World.log {E : Type} (w : World E) (ev : Call) : World E :=
  { w with calls := w.calls ++ [ev] }

/-- Call a collaborator that receives the context pointer. -/
def World.invoke {E : Type} (w : World E) (ev : QDF_STATUS → Call)
    (f : tAniSirGlobal → E → Effect E) : QDF_STATUS × World E :=
  let r := f w.global_mac_context w.ext
  (r.status,
    { w with
      global_mac_context := r.ctx
      ext := r.ext
      calls := w.calls ++ [ev r.status] })

/-- Call a collaborator that only receives a pointer to another object. -/
def World.notify {E : Type} (w : World E) (ev : Call) (f : E → E) : World E :=
  { w with ext := f w.ext, calls := w.calls ++ [ev] }

/-- Store into the context block. -/
def World.store {E : Type} (w : World E) (f : tAniSirGlobal → tAniSirGlobal) :
    World E :=
  { w with global_mac_context := f w.global_mac_context }

/-- The helper `mac_allocate_context_buffer` (lines 46-51 and 61-64). -/
def mac_allocate_context_buffer {E : Type} (b : Build) (c : Collaborators E)
    (w : World E) : Nat × World E :=
  if b.WLAN_ALLOCATE_GLOBAL_BUFFERS_DYNAMICALLY then
    let r := c.qdf_mem_malloc w.ext
    (r.ptr,
      { w with
        global_mac_context_ptr := r.ptr
        global_mac_context := if r.ptr = 0 then w.global_mac_context else r.block
        ext := r.ext
        calls := w.calls ++ [Call.mac_allocate_context_buffer r.ptr] })
  else
    (STATIC_CONTEXT_ADDR, w.log (Call.mac_allocate_context_buffer STATIC_CONTEXT_ADDR))

/-- The helper `mac_free_context_buffer` (lines 53-57 and 66-68). -/
def mac_free_context_buffer {E : Type} (b : Build) (c : Collaborators E)
    (w : World E) : World E :=
  let w := w.log Call.mac_free_context_buffer
  if b.WLAN_ALLOCATE_GLOBAL_BUFFERS_DYNAMICALLY then
    { w with
      ext := c.qdf_mem_free w.global_mac_context_ptr w.ext
      global_mac_context_ptr := 0 }
  else
    w

/-- The function `mac_start` (lines 71-89).  `MAC_CONTEXT` is a cast and
`ANI_DRIVER_TYPE(mac)` reads `mac->gDriverType`; `QDF_ASSERT(0)` only reports.
`params` is `none` for a null pointer. -/
def mac_start {E : Type} (b : Build) (c : Collaborators E) (mac_handle : Nat)
    (params : Option mac_start_params) (w : World E) : Ret × World E :=
  if mac_handle = 0 then (Ret.status QDF_STATUS_E_FAILURE, w)
  else
    match params with
    | none => (Ret.status QDF_STATUS_E_FAILURE, w)
    | some p =>
      if mac_handle ≠ context_addr b w then (Ret.undefined, w)
      else
        let w1 := w.store fun m => { m with gDriverType := p.driver_type }
        if w1.global_mac_context.gDriverType ≠ b.QDF_DRIVER_TYPE_MFG then
          let r := w1.invoke (Call.pe_start mac_handle) (c.pe_start mac_handle)
          (Ret.status r.1, r.2)
        else
          (Ret.status QDF_STATUS_SUCCESS, w1)

/-- The function `mac_stop` (lines 91-99). -/
def mac_stop {E : Type} (c : Collaborators E) (mac_handle : Nat) (w : World E) :
    QDF_STATUS × World E :=
  let w1 := (w.invoke (fun _ => Call.pe_stop mac_handle) (c.pe_stop mac_handle)).2
  let w2 := (w1.invoke (fun _ => Call.cfg_cleanup mac_handle) (c.cfg_cleanup mac_handle)).2
  (QDF_STATUS_SUCCESS, w2)

/-- The label `fail` of `mac_open` (lines 183-186). -/
def mac_open_fail {E : Type} (b : Build) (c : Collaborators E) (psoc : Nat)
    (status : QDF_STATUS) (hal : Nat) (w : World E) : OpenResult E :=
  let w1 := w.notify (Call.wlan_objmgr_psoc_release_ref psoc)
    (c.wlan_objmgr_psoc_release_ref psoc)
  let w2 := mac_free_context_buffer b c w1
  { ret := Ret.status status, hal := some hal, world := w2 }

/-- The function `mac_open` (lines 111-187).  `pHalHandle` is `none` for a
null pointer and `some v` for a pointer to a handle variable holding `v`;
`cds_cfg` is `none` for a null pointer. -/
def mac_open {E : Type} (b : Build) (c : Collaborators E) (psoc : Nat)
    (pHalHandle : Option Nat) (hdd_handle : Nat)
    (cds_cfg : Option cds_config_info) (w : World E) : OpenResult E :=
  match pHalHandle with
  | none => { ret := Ret.status QDF_STATUS_E_FAILURE, hal := none, world := w }
  | some hal0 =>
    let a := mac_allocate_context_buffer b c w
    let p_mac := a.1
    if p_mac = 0 then
      { ret := Ret.status QDF_STATUS_E_NOMEM, hal := some hal0, world := a.2 }
    else
      let w1 := a.2.store fun m => { m with hdd_handle := hdd_handle }
      let g := c.wlan_objmgr_psoc_try_get_ref psoc w1.ext
      let w2 := { w1 with
        ext := g.2
        calls := w1.calls ++ [Call.wlan_objmgr_psoc_try_get_ref psoc g.1] }
      if QDF_IS_STATUS_ERROR g.1 then
        { ret := Ret.status QDF_STATUS_E_FAILURE, hal := some hal0,
          world := mac_free_context_buffer b c w2 }
      else
        let w3 := w2.store fun m => { m with psoc := psoc }
        let l := c.mlme_get_psoc_obj psoc w3.ext
        let mlme_obj := l.1
        let w4 := { w3 with
          ext := l.2
          calls := w3.calls ++ [Call.mlme_get_psoc_obj psoc l.1] }
        if mlme_obj = 0 then
          mac_open_fail b c psoc QDF_STATUS_E_FAILURE hal0 w4
        else
          let w5 := w4.store fun m => { m with mlme_cfg := mlme_obj + b.offsetof_cfg }
          let hal1 := p_mac
          match cds_cfg with
          | none => { ret := Ret.undefined, hal := some hal1, world := w5 }
          | some cfg =>
            let w6 :=
              if cfg.driver_type ≠ 0 then
                w5.store fun m => { m with gDriverType := b.QDF_DRIVER_TYPE_MFG }
              else w5
            let i := w6.invoke (Call.cfg_init p_mac) (c.cfg_init p_mac)
            if QDF_STATUS_SUCCESS ≠ i.1 then
              mac_open_fail b c psoc QDF_STATUS_E_FAILURE hal1 i.2
            else
              let w7 :=
                (i.2.invoke (fun _ => Call.sys_init_globals p_mac)
                  (c.sys_init_globals p_mac)).2
              let w8 := w7.store fun m =>
                { m with
                  mgmtSeqNum := WLAN_HOST_SEQ_NUM_MIN - 1
                  he_sgi_ltf_cfg_bit_mask := b.DEF_HE_AUTO_SGI_LTF
                  is_usr_cfg_amsdu_enabled := true }
              let o := w8.invoke (Call.pe_open p_mac) (c.pe_open p_mac cfg)
              if QDF_STATUS_SUCCESS ≠ o.1 then
                let w9 :=
                  (o.2.invoke (fun _ => Call.cfg_de_init p_mac) (c.cfg_de_init p_mac)).2
                mac_open_fail b c psoc o.1 hal1 w9
              else
                { ret := Ret.status o.1, hal := some hal1, world := o.2 }

/-- The function `mac_close` (lines 197-220). -/
def mac_close {E : Type} (b : Build) (c : Collaborators E) (hHal : Nat)
    (w : World E) : Ret × World E :=
  if hHal = 0 then (Ret.status QDF_STATUS_E_FAILURE, w)
  else
    let w1 := (w.invoke (fun _ => Call.pe_close hHal) (c.pe_close hHal)).2
    let w2 := (w1.invoke (fun _ => Call.cfg_de_init hHal) (c.cfg_de_init hHal)).2
    if hHal ≠ context_addr b w2 then (Ret.undefined, w2)
    else
      let w3 :=
        if w2.global_mac_context.pdev ≠ 0 then
          (w2.notify (Call.wlan_objmgr_pdev_release_ref w2.global_mac_context.pdev)
            (c.wlan_objmgr_pdev_release_ref w2.global_mac_context.pdev)).store
            fun m => { m with pdev := 0 }
        else w2
      let w4 := w3.notify (Call.wlan_objmgr_psoc_release_ref w3.global_mac_context.psoc)
        (c.wlan_objmgr_psoc_release_ref w3.global_mac_context.psoc)
      let w5 := w4.store fun m => { m with mlme_cfg := 0 }
      let w6 := w5.store fun m => { m with psoc := 0 }
      (Ret.status QDF_STATUS_SUCCESS, mac_free_context_buffer b c w6)

/-- A collaborator that is handed the context leaves the three bindings
`mac_open` makes (`hdd_handle`, `psoc`, `mlme_cfg`) as it found them. -/
def keeps_bindings {E : Type} (f : tAniSirGlobal → E → Effect E) : Prop :=
  ∀ m e, (f m e).ctx.hdd_handle = m.hdd_handle ∧ (f m e).ctx.psoc = m.psoc ∧
    (f m e).ctx.mlme_cfg = m.mlme_cfg

/-- The three collaborators `mac_open` hands the context to before it
returns success leave its bindings alone. -/
def open_frame {E : Type} (c : Collaborators E) : Prop :=
  (∀ p, keeps_bindings (c.cfg_init p)) ∧ (∀ p, keeps_bindings (c.sys_init_globals p)) ∧
    (∀ p cfg, keeps_bindings (c.pe_open p cfg))

/-- The two collaborators `mac_close` hands the context to before it reads
the context leave its bindings alone. -/
def close_frame {E : Type} (c : Collaborators E) : Prop :=
  (∀ p, keeps_bindings (c.pe_close p)) ∧ (∀ p, keeps_bindings (c.cfg_de_init p))

/-- The context block as `mac_close` reads it: after `pe_close` and
`cfg_de_init` have run on the block of state `w`. -/
def close_view {E : Type} (c : Collaborators E) (hHal : Nat) (w : World E) :
    tAniSirGlobal :=
  (c.cfg_de_init hHal (c.pe_close hHal w.global_mac_context w.ext).ctx
    (c.pe_close hHal w.global_mac_context w.ext).ext).ctx

/-- A collaborator that is handed the context leaves the operating mode
(`gDriverType`) as it found it. -/
def keeps_mode {E : Type} (f : tAniSirGlobal → E → Effect E) : Prop :=
  ∀ m e, (f m e).ctx.gDriverType = m.gDriverType

/-- The three collaborators `mac_open` hands the context to before it
returns success leave the operating mode alone. -/
def open_keeps_mode {E : Type} (c : Collaborators E) : Prop :=
  (∀ p, keeps_mode (c.cfg_init p)) ∧ (∀ p, keeps_mode (c.sys_init_globals p)) ∧
    (∀ p cfg, keeps_mode (c.pe_open p cfg))

/-- A collaborator that is handed the context leaves the three fields written
at lines 171-173 (`mgmtSeqNum`, `he_sgi_ltf_cfg_bit_mask`,
`is_usr_cfg_amsdu_enabled`) as it found them. -/
def keeps_seed {E : Type} (f : tAniSirGlobal → E → Effect E) : Prop :=
  ∀ m e, (f m e).ctx.mgmtSeqNum = m.mgmtSeqNum ∧
    (f m e).ctx.he_sgi_ltf_cfg_bit_mask = m.he_sgi_ltf_cfg_bit_mask ∧
    (f m e).ctx.is_usr_cfg_amsdu_enabled = m.is_usr_cfg_amsdu_enabled

/-- The collaborators' state as `mac_close` finds it when it starts
releasing: after `pe_close` and `cfg_de_init` have run on state `w`. -/
def close_ext {E : Type} (c : Collaborators E) (hHal : Nat) (w : World E) : E :=
  (c.cfg_de_init hHal (c.pe_close hHal w.global_mac_context w.ext).ctx
    (c.pe_close hHal w.global_mac_context w.ext).ext).ext

/-- The three collaborators `mac_start` and `mac_stop` hand the context to
leave its bindings alone. -/
def cycle_frame {E : Type} (c : Collaborators E) : Prop :=
  (∀ p, keeps_bindings (c.pe_start p)) ∧ (∀ p, keeps_bindings (c.pe_stop p)) ∧
    (∀ p, keeps_bindings (c.cfg_cleanup p))

/-- The calls made between state `w0` and a later state `w1`. -/
def calls_since {E : Type} (w0 w1 : World E) : List Call :=
  w1.calls.drop w0.calls.length

/-! ## Concrete scenarios

Small closed instances of the parameters, used to run the functions. -/

/-- A build with the static strategy. -/
def static_build : Build :=
  { WLAN_ALLOCATE_GLOBAL_BUFFERS_DYNAMICALLY := false
    QDF_DRIVER_TYPE_MFG := 1
    DEF_HE_AUTO_SGI_LTF := 3843
    offsetof_cfg := 0 }

/-- A build with the dynamic strategy. -/
def dynamic_build : Build :=
  { WLAN_ALLOCATE_GLOBAL_BUFFERS_DYNAMICALLY := true
    QDF_DRIVER_TYPE_MFG := 1
    DEF_HE_AUTO_SGI_LTF := 3843
    offsetof_cfg := 0 }

/-- A context block with every field zero. -/
def zero_context : tAniSirGlobal :=
  { hdd_handle := 0, psoc := 0, mlme_cfg := 0, pdev := 0, gDriverType := 0,
    mgmtSeqNum := 0, he_sgi_ltf_cfg_bit_mask := 0, is_usr_cfg_amsdu_enabled := false }

/-- The state before anything has run: zeroed static object, null pointer
variable, no call made. -/
def boot_world : World Unit :=
  { global_mac_context_ptr := 0, global_mac_context := zero_context, ext := (), calls := [] }

/-- Collaborators with scripted results that never write the context block:
`qdf_mem_malloc` returns `ptr` and a zeroed block, the reference acquisition
returns `get`, the MLME lookup returns `mlme`, `cfg_init` returns `ini`,
`pe_open` returns `opn` and `pe_start` returns `sta`. -/
def scripted (ptr : Nat) (get : QDF_STATUS) (mlme : Nat) (ini opn sta : QDF_STATUS) :
    Collaborators Unit :=
  { qdf_mem_malloc := fun e => { ptr := ptr, block := zero_context, ext := e }
    qdf_mem_free := fun _ e => e
    wlan_objmgr_psoc_try_get_ref := fun _ e => (get, e)
    wlan_objmgr_psoc_release_ref := fun _ e => e
    wlan_objmgr_pdev_release_ref := fun _ e => e
    mlme_get_psoc_obj := fun _ e => (mlme, e)
    cfg_init := fun _ m e => { status := ini, ctx := m, ext := e }
    cfg_de_init := fun _ m e => { status := QDF_STATUS_SUCCESS, ctx := m, ext := e }
    cfg_cleanup := fun _ m e => { status := QDF_STATUS_SUCCESS, ctx := m, ext := e }
    sys_init_globals := fun _ m e => { status := QDF_STATUS_SUCCESS, ctx := m, ext := e }
    pe_open := fun _ _ m e => { status := opn, ctx := m, ext := e }
    pe_close := fun _ m e => { status := QDF_STATUS_SUCCESS, ctx := m, ext := e }
    pe_start := fun _ m e => { status := sta, ctx := m, ext := e }
    pe_stop := fun _ m e => { status := QDF_STATUS_SUCCESS, ctx := m, ext := e } }

/-- A ledger of what is outstanding: references held on the psoc, heap blocks
not yet freed, and initialisations of the configuration store not yet undone. -/
structure Ledger where
  psoc_refs : Nat
  blocks : Nat
  cfg_stores : Nat
  deriving DecidableEq, Repr

/-- Collaborators that keep the ledger and never write the context block:
`qdf_mem_malloc` returns `ptr` and counts a block when `ptr` is not null,
`qdf_mem_free` of a non-null pointer takes one back; the reference
acquisition returns `get` and counts a reference on success, a release takes
one back; `cfg_init` returns `ini` and counts a store on success, a deinit
takes one back if there is one; the MLME lookup returns `mlme`, `pe_open`
returns `opn` and `pe_start` returns `sta`. -/
def ledger_collaborators (ptr : Nat) (get : QDF_STATUS) (mlme : Nat)
    (ini opn sta : QDF_STATUS) : Collaborators Ledger :=
  { qdf_mem_malloc := fun e =>
      { ptr := ptr, block := zero_context,
        ext := if ptr = 0 then e else { e with blocks := e.blocks + 1 } }
    qdf_mem_free := fun p e => if p = 0 then e else { e with blocks := e.blocks - 1 }
    wlan_objmgr_psoc_try_get_ref := fun _ e =>
      (get, if get = QDF_STATUS_SUCCESS then { e with psoc_refs := e.psoc_refs + 1 } else e)
    wlan_objmgr_psoc_release_ref := fun _ e => { e with psoc_refs := e.psoc_refs - 1 }
    wlan_objmgr_pdev_release_ref := fun _ e => e
    mlme_get_psoc_obj := fun _ e => (mlme, e)
    cfg_init := fun _ m e =>
      { status := ini, ctx := m,
        ext := if ini = QDF_STATUS_SUCCESS then { e with cfg_stores := e.cfg_stores + 1 }
          else e }
    cfg_de_init := fun _ m e =>
      { status := QDF_STATUS_SUCCESS, ctx := m,
        ext := { e with cfg_stores := e.cfg_stores - 1 } }
    cfg_cleanup := fun _ m e =>
      { status := QDF_STATUS_SUCCESS, ctx := m,
        ext := { e with cfg_stores := e.cfg_stores - 1 } }
    sys_init_globals := fun _ m e => { status := QDF_STATUS_SUCCESS, ctx := m, ext := e }
    pe_open := fun _ _ m e => { status := opn, ctx := m, ext := e }
    pe_close := fun _ m e => { status := QDF_STATUS_SUCCESS, ctx := m, ext := e }
    pe_start := fun _ m e => { status := sta, ctx := m, ext := e }
    pe_stop := fun _ m e => { status := QDF_STATUS_SUCCESS, ctx := m, ext := e } }

/-- The state before anything has run, with nothing outstanding. -/
def ledger_boot_world : World Ledger :=
  { global_mac_context_ptr := 0, global_mac_context := zero_context,
    ext := { psoc_refs := 0, blocks := 0, cfg_stores := 0 }, calls := [] }

/-- An engine `pe_open` that succeeds, writing nothing, when the context it is
handed has sequence counter `2047` and the A-MSDU flag set, and fails
otherwise. -/
def picky_pe_open (_mac : Nat) (_cfg : cds_config_info) (m : tAniSirGlobal) (e : Unit) :
    Effect Unit :=
  if m.mgmtSeqNum = 2047 ∧ m.is_usr_cfg_amsdu_enabled = true then
    { status := QDF_STATUS_SUCCESS, ctx := m, ext := e }
  else { status := QDF_STATUS_E_FAILURE, ctx := m, ext := e }

/-! ## The configuration store, from the specification

`cfg_init`, `cfg_cleanup` and `cfg_de_init` are defined in another file.  The
external state is one flag: whether the configuration store is initialised. -/

/-- Modelled from the spec: the configuration store's `init` (`cfg_init`,
defined outside this file), which "initializes the external configuration
store using data reachable from the context, binds the resulting
configuration view into the context, and returns success/failure".  `ok`
says whether it succeeds.  On success the store is initialised and the view
the context holds stays bound; on failure the store is not initialised and
the context is left as it was found. -/
def cfg_init_spec (ok : Bool) (_mac : Nat) (m : tAniSirGlobal) (_e : Bool) : Effect Bool :=
  if ok then { status := QDF_STATUS_SUCCESS, ctx := m, ext := true }
  else { status := QDF_STATUS_E_FAILURE, ctx := m, ext := false }

/-- Modelled from the spec: the configuration store's `deinit` (`cfg_cleanup`
and `cfg_de_init`, defined outside this file), which "unconditionally tears
down the configuration store and clears the bound view". -/
def cfg_deinit_spec (_mac : Nat) (m : tAniSirGlobal) (_e : Bool) : Effect Bool :=
  { status := QDF_STATUS_SUCCESS, ctx := { m with mlme_cfg := 0 }, ext := false }

/-- Collaborators whose configuration store follows the specification; the
others succeed and write nothing, the MLME object is at `mlme`. -/
def spec_collaborators (ok : Bool) (mlme : Nat) : Collaborators Bool :=
  { qdf_mem_malloc := fun e => { ptr := 64, block := zero_context, ext := e }
    qdf_mem_free := fun _ e => e
    wlan_objmgr_psoc_try_get_ref := fun _ e => (QDF_STATUS_SUCCESS, e)
    wlan_objmgr_psoc_release_ref := fun _ e => e
    wlan_objmgr_pdev_release_ref := fun _ e => e
    mlme_get_psoc_obj := fun _ e => (mlme, e)
    cfg_init := cfg_init_spec ok
    cfg_de_init := cfg_deinit_spec
    cfg_cleanup := cfg_deinit_spec
    sys_init_globals := fun _ m e => { status := QDF_STATUS_SUCCESS, ctx := m, ext := e }
    pe_open := fun _ _ m e => { status := QDF_STATUS_SUCCESS, ctx := m, ext := e }
    pe_close := fun _ m e => { status := QDF_STATUS_SUCCESS, ctx := m, ext := e }
    pe_start := fun _ m e => { status := QDF_STATUS_SUCCESS, ctx := m, ext := e }
    pe_stop := fun _ m e => { status := QDF_STATUS_SUCCESS, ctx := m, ext := e } }

/-- The state before anything has run, with the configuration store not
initialised. -/
def spec_boot_world : World Bool :=
  { global_mac_context_ptr := 0, global_mac_context := zero_context, ext := false, calls := [] }

/-! ## Helper lemmas -/

theorem calls_since_append {E : Type} (w0 w1 : World E) (t : List Call)
    (h : w1.calls = w0.calls ++ t) : calls_since w0 w1 = t := by
  simp [calls_since, h]

theorem alloc_calls {E : Type} (b : Build) (c : Collaborators E) (w : World E) :
    (mac_allocate_context_buffer b c w).2.calls =
      w.calls ++ [Call.mac_allocate_context_buffer (mac_allocate_context_buffer b c w).1] := by
  unfold mac_allocate_context_buffer
  split <;> simp [World.log]

theorem alloc_addr {E : Type} (b : Build) (c : Collaborators E) (w : World E) :
    context_addr b (mac_allocate_context_buffer b c w).2 =
      (mac_allocate_context_buffer b c w).1 := by
  unfold mac_allocate_context_buffer context_addr
  split <;> simp_all [World.log]

theorem free_calls {E : Type} (b : Build) (c : Collaborators E) (w : World E) :
    (mac_free_context_buffer b c w).calls = w.calls ++ [Call.mac_free_context_buffer] := by
  unfold mac_free_context_buffer
  split <;> simp [World.log]

theorem free_block {E : Type} (b : Build) (c : Collaborators E) (w : World E) :
    (mac_free_context_buffer b c w).global_mac_context = w.global_mac_context := by
  unfold mac_free_context_buffer
  split <;> simp [World.log]

/-- Every run of `mac_open` has one of eight shapes. -/
theorem mac_open_cases {E : Type} (b : Build) (c : Collaborators E) (psoc : Nat)
    (pHalHandle : Option Nat) (hdd_handle : Nat) (cds_cfg : Option cds_config_info)
    (w : World E) :
    (pHalHandle = none ∧
      (mac_open b c psoc pHalHandle hdd_handle cds_cfg w).ret
        = Ret.status QDF_STATUS_E_FAILURE ∧
      (mac_open b c psoc pHalHandle hdd_handle cds_cfg w).hal = none ∧
      (mac_open b c psoc pHalHandle hdd_handle cds_cfg w).world = w) ∨
    (∃ hal0, pHalHandle = some hal0 ∧
      (mac_open b c psoc pHalHandle hdd_handle cds_cfg w).ret
        = Ret.status QDF_STATUS_E_NOMEM ∧
      (mac_open b c psoc pHalHandle hdd_handle cds_cfg w).hal = some hal0 ∧
      (mac_open b c psoc pHalHandle hdd_handle cds_cfg w).world.calls
        = w.calls ++ [Call.mac_allocate_context_buffer 0]) ∨
    (∃ hal0 p s, pHalHandle = some hal0 ∧ p ≠ 0 ∧ s ≠ QDF_STATUS_SUCCESS ∧
      (mac_open b c psoc pHalHandle hdd_handle cds_cfg w).ret
        = Ret.status QDF_STATUS_E_FAILURE ∧
      (mac_open b c psoc pHalHandle hdd_handle cds_cfg w).hal = some hal0 ∧
      (mac_open b c psoc pHalHandle hdd_handle cds_cfg w).world.calls
        = w.calls ++ [Call.mac_allocate_context_buffer p,
            Call.wlan_objmgr_psoc_try_get_ref psoc s,
            Call.mac_free_context_buffer]) ∨
    (∃ hal0 p, pHalHandle = some hal0 ∧ p ≠ 0 ∧
      (mac_open b c psoc pHalHandle hdd_handle cds_cfg w).ret
        = Ret.status QDF_STATUS_E_FAILURE ∧
      (mac_open b c psoc pHalHandle hdd_handle cds_cfg w).hal = some hal0 ∧
      (mac_open b c psoc pHalHandle hdd_handle cds_cfg w).world.calls
        = w.calls ++ [Call.mac_allocate_context_buffer p,
            Call.wlan_objmgr_psoc_try_get_ref psoc QDF_STATUS_SUCCESS,
            Call.mlme_get_psoc_obj psoc 0,
            Call.wlan_objmgr_psoc_release_ref psoc,
            Call.mac_free_context_buffer]) ∨
    (∃ hal0 p m, pHalHandle = some hal0 ∧ p ≠ 0 ∧ m ≠ 0 ∧ cds_cfg = none ∧
      (mac_open b c psoc pHalHandle hdd_handle cds_cfg w).ret = Ret.undefined ∧
      (mac_open b c psoc pHalHandle hdd_handle cds_cfg w).hal = some p ∧
      (mac_open b c psoc pHalHandle hdd_handle cds_cfg w).world.calls
        = w.calls ++ [Call.mac_allocate_context_buffer p,
            Call.wlan_objmgr_psoc_try_get_ref psoc QDF_STATUS_SUCCESS,
            Call.mlme_get_psoc_obj psoc m]) ∨
    (∃ hal0 p m s, pHalHandle = some hal0 ∧ p ≠ 0 ∧ m ≠ 0 ∧ s ≠ QDF_STATUS_SUCCESS ∧
      (mac_open b c psoc pHalHandle hdd_handle cds_cfg w).ret
        = Ret.status QDF_STATUS_E_FAILURE ∧
      (mac_open b c psoc pHalHandle hdd_handle cds_cfg w).hal = some p ∧
      (mac_open b c psoc pHalHandle hdd_handle cds_cfg w).world.calls
        = w.calls ++ [Call.mac_allocate_context_buffer p,
            Call.wlan_objmgr_psoc_try_get_ref psoc QDF_STATUS_SUCCESS,
            Call.mlme_get_psoc_obj psoc m,
            Call.cfg_init p s,
            Call.wlan_objmgr_psoc_release_ref psoc,
            Call.mac_free_context_buffer]) ∨
    (∃ hal0 p m s, pHalHandle = some hal0 ∧ p ≠ 0 ∧ m ≠ 0 ∧ s ≠ QDF_STATUS_SUCCESS ∧
      (mac_open b c psoc pHalHandle hdd_handle cds_cfg w).ret = Ret.status s ∧
      (mac_open b c psoc pHalHandle hdd_handle cds_cfg w).hal = some p ∧
      (mac_open b c psoc pHalHandle hdd_handle cds_cfg w).world.calls
        = w.calls ++ [Call.mac_allocate_context_buffer p,
            Call.wlan_objmgr_psoc_try_get_ref psoc QDF_STATUS_SUCCESS,
            Call.mlme_get_psoc_obj psoc m,
            Call.cfg_init p QDF_STATUS_SUCCESS,
            Call.sys_init_globals p,
            Call.pe_open p s,
            Call.cfg_de_init p,
            Call.wlan_objmgr_psoc_release_ref psoc,
            Call.mac_free_context_buffer]) ∨
    (∃ hal0 p m, pHalHandle = some hal0 ∧ p ≠ 0 ∧ m ≠ 0 ∧
      (mac_open b c psoc pHalHandle hdd_handle cds_cfg w).ret
        = Ret.status QDF_STATUS_SUCCESS ∧
      (mac_open b c psoc pHalHandle hdd_handle cds_cfg w).hal = some p ∧
      context_addr b (mac_open b c psoc pHalHandle hdd_handle cds_cfg w).world = p ∧
      (open_frame c →
        (mac_open b c psoc pHalHandle hdd_handle cds_cfg w).world.global_mac_context.hdd_handle
          = hdd_handle ∧
        (mac_open b c psoc pHalHandle hdd_handle cds_cfg w).world.global_mac_context.psoc
          = psoc ∧
        (mac_open b c psoc pHalHandle hdd_handle cds_cfg w).world.global_mac_context.mlme_cfg
          = m + b.offsetof_cfg) ∧
      (mac_open b c psoc pHalHandle hdd_handle cds_cfg w).world.calls
        = w.calls ++ [Call.mac_allocate_context_buffer p,
            Call.wlan_objmgr_psoc_try_get_ref psoc QDF_STATUS_SUCCESS,
            Call.mlme_get_psoc_obj psoc m,
            Call.cfg_init p QDF_STATUS_SUCCESS,
            Call.sys_init_globals p,
            Call.pe_open p QDF_STATUS_SUCCESS]) := by
  cases pHalHandle with
  | none => left; simp [mac_open]
  | some hal0 =>
    right
    have hac := alloc_calls b c w
    rcases hA : mac_allocate_context_buffer b c w with ⟨p, wa⟩
    rw [hA] at hac
    simp only at hac
    by_cases hp : p = 0
    · left
      refine ⟨hal0, rfl, ?_⟩
      simp [mac_open, hA, hp, hac]
    · right
      rcases hG : c.wlan_objmgr_psoc_try_get_ref psoc wa.ext with ⟨s, e1⟩
      by_cases hs : s = QDF_STATUS_SUCCESS
      · right
        subst hs
        rcases hL : c.mlme_get_psoc_obj psoc e1 with ⟨m, e2⟩
        by_cases hm : m = 0
        · left
          refine ⟨hal0, p, rfl, hp, ?_⟩
          simp [mac_open, hA, hp, hac, World.store, hG, QDF_IS_STATUS_ERROR, hL, hm,
            mac_open_fail, World.notify, free_calls]
        · right
          cases cds_cfg with
          | none =>
            left
            refine ⟨hal0, p, m, rfl, hp, hm, rfl, ?_⟩
            simp [mac_open, hA, hp, hac, World.store, hG, QDF_IS_STATUS_ERROR, hL, hm]
          | some cfg =>
            right
            by_cases hd : cfg.driver_type = 0
            all_goals
              simp only [mac_open, hA, hp, hac, World.store, hG, QDF_IS_STATUS_ERROR, hL, hm,
                World.invoke, if_false, decide_False, decide_True, ne_eq, not_true_eq_false,
                Bool.false_eq_true, hd, not_false_eq_true, if_true]
              generalize hI : c.cfg_init p _ _ = ri
              rcases ri with ⟨si, ci, ei⟩
              by_cases hsi : si = QDF_STATUS_SUCCESS
              · right
                subst hsi
                simp only [not_true_eq_false, if_false]
                generalize hS : c.sys_init_globals p _ _ = rg
                rcases rg with ⟨sg, cg, eg⟩
                simp only []
                generalize hO : c.pe_open p cfg _ _ = ro
                rcases ro with ⟨so, co, eo⟩
                by_cases hso : so = QDF_STATUS_SUCCESS
                · right
                  subst hso
                  refine ⟨hal0, p, m, rfl, hp, hm, ?_⟩
                  have hca := alloc_addr b c w
                  rw [hA] at hca
                  simp only [context_addr] at hca
                  refine ⟨by simp, by simp, by simpa [context_addr] using hca, ?_, by simp⟩
                  intro hf
                  have eI := congrArg Effect.ctx hI
                  have eS := congrArg Effect.ctx hS
                  have eO := congrArg Effect.ctx hO
                  simp only [] at eI eS eO
                  have f1 : ci.hdd_handle = hdd_handle ∧ ci.psoc = psoc ∧
                      ci.mlme_cfg = m + b.offsetof_cfg := by
                    rw [← eI]; exact hf.1 p _ e2
                  have f2 : cg.hdd_handle = ci.hdd_handle ∧ cg.psoc = ci.psoc ∧
                      cg.mlme_cfg = ci.mlme_cfg := by
                    rw [← eS]; exact hf.2.1 p ci ei
                  have f3 : co.hdd_handle = cg.hdd_handle ∧ co.psoc = cg.psoc ∧
                      co.mlme_cfg = cg.mlme_cfg := by
                    rw [← eO]; exact hf.2.2 p cfg _ eg
                  simp only [not_true_eq_false, if_false]
                  rw [f3.1, f3.2.1, f3.2.2, f2.1, f2.2.1, f2.2.2, f1.1, f1.2.1, f1.2.2]
                  simp
                · left
                  refine ⟨hal0, p, m, so, rfl, hp, hm, hso, ?_⟩
                  have hso2 : ¬ QDF_STATUS_SUCCESS = so := fun h => hso h.symm
                  simp [hso2, mac_open_fail, World.notify, free_calls]
              · left
                refine ⟨hal0, p, m, si, rfl, hp, hm, hsi, ?_⟩
                have hsi2 : ¬ QDF_STATUS_SUCCESS = si := fun h => hsi h.symm
                simp [hsi2, mac_open_fail, World.notify, free_calls]
      · left
        refine ⟨hal0, p, s, rfl, hp, hs, ?_⟩
        simp [mac_open, hA, hp, hac, World.store, hG, QDF_IS_STATUS_ERROR, hs, free_calls]

/-- A run of `mac_close` on a valid handle. -/
theorem mac_close_run {E : Type} (b : Build) (c : Collaborators E) (hHal : Nat)
    (w : World E) (hnz : hHal ≠ 0) (hv : hHal = context_addr b w) :
    (mac_close b c hHal w).1 = Ret.status QDF_STATUS_SUCCESS ∧
    (mac_close b c hHal w).2.calls =
      w.calls ++ ([Call.pe_close hHal, Call.cfg_de_init hHal] ++
        (if (close_view c hHal w).pdev ≠ 0 then
          [Call.wlan_objmgr_pdev_release_ref (close_view c hHal w).pdev] else []) ++
        [Call.wlan_objmgr_psoc_release_ref (close_view c hHal w).psoc,
          Call.mac_free_context_buffer]) ∧
    (mac_close b c hHal w).2.global_mac_context.psoc = 0 ∧
    (mac_close b c hHal w).2.global_mac_context.mlme_cfg = 0 ∧
    (mac_close b c hHal w).2.global_mac_context.pdev = 0 ∧
    (b.WLAN_ALLOCATE_GLOBAL_BUFFERS_DYNAMICALLY = true →
      (mac_close b c hHal w).2.global_mac_context_ptr = 0) ∧
    (close_frame c → (close_view c hHal w).psoc = w.global_mac_context.psoc) := by
  have k1 : ((w.invoke (fun _ => Call.pe_close hHal) (c.pe_close hHal)).2.invoke
        (fun _ => Call.cfg_de_init hHal) (c.cfg_de_init hHal)).2.calls =
      w.calls ++ [Call.pe_close hHal, Call.cfg_de_init hHal] := by
    simp [World.invoke]
  have k2 : ((w.invoke (fun _ => Call.pe_close hHal) (c.pe_close hHal)).2.invoke
        (fun _ => Call.cfg_de_init hHal) (c.cfg_de_init hHal)).2.global_mac_context =
      close_view c hHal w := by
    simp [World.invoke, close_view]
  have k3 : context_addr b
      ((w.invoke (fun _ => Call.pe_close hHal) (c.pe_close hHal)).2.invoke
        (fun _ => Call.cfg_de_init hHal) (c.cfg_de_init hHal)).2 = hHal := by
    rw [hv]; simp [context_addr, World.invoke]
  have k4 : close_frame c → (close_view c hHal w).psoc = w.global_mac_context.psoc := by
    intro hf
    simp only [close_view]
    rw [(hf.2 hHal _ _).2.1, (hf.1 hHal _ _).2.1]
  simp only [mac_close, hnz, if_false]
  generalize ((w.invoke (fun _ => Call.pe_close hHal) (c.pe_close hHal)).2.invoke
        (fun _ => Call.cfg_de_init hHal) (c.cfg_de_init hHal)).2 = w2 at k1 k2 k3 ⊢
  generalize close_view c hHal w = v at k2 k4 ⊢
  rcases w2 with ⟨ptr, blk, ext, calls⟩
  simp only at k1 k2
  subst k1 k2
  simp only [k3, ne_eq, not_true_eq_false, if_false]
  by_cases hpd : blk.pdev = 0
  · simp [hpd, free_calls, free_block, World.store, World.notify]
    refine ⟨fun hd => ?_, k4⟩
    simp [mac_free_context_buffer, hd, World.log]
  · simp [hpd, free_calls, free_block, World.store, World.notify]
    refine ⟨fun hd => ?_, k4⟩
    simp [mac_free_context_buffer, hd, World.log]

/-- A successful run of `mac_open`: the block it leaves is the one `pe_open`
returned, `pe_open` having been handed the block `sys_init_globals` returned
with the three stores of lines 171-173 applied, and `cfg_init` having been
handed a block `B1` whose mode is the manufacturing type when `driver_type`
is non-zero and the mode of the allocated block otherwise. -/
theorem mac_open_success_run {E : Type} (b : Build) (c : Collaborators E) (psoc : Nat)
    (pHalHandle : Option Nat) (hdd_handle : Nat) (cds_cfg : Option cds_config_info)
    (w : World E)
    (hs : (mac_open b c psoc pHalHandle hdd_handle cds_cfg w).ret
      = Ret.status QDF_STATUS_SUCCESS) :
    ∃ cfg p B1 e2, cds_cfg = some cfg ∧
      B1.gDriverType =
        (if cfg.driver_type ≠ 0 then b.QDF_DRIVER_TYPE_MFG
          else (mac_allocate_context_buffer b c w).2.global_mac_context.gDriverType) ∧
      (mac_open b c psoc pHalHandle hdd_handle cds_cfg w).world.global_mac_context =
        (c.pe_open p cfg
          { (c.sys_init_globals p (c.cfg_init p B1 e2).ctx (c.cfg_init p B1 e2).ext).ctx with
            mgmtSeqNum := WLAN_HOST_SEQ_NUM_MIN - 1
            he_sgi_ltf_cfg_bit_mask := b.DEF_HE_AUTO_SGI_LTF
            is_usr_cfg_amsdu_enabled := true }
          (c.sys_init_globals p (c.cfg_init p B1 e2).ctx (c.cfg_init p B1 e2).ext).ext).ctx := by
  cases pHalHandle with
  | none => simp [mac_open] at hs
  | some hal0 =>
    rcases hA : mac_allocate_context_buffer b c w with ⟨p, wa⟩
    by_cases hp : p = 0
    · simp [mac_open, hA, hp] at hs
    · rcases hG : c.wlan_objmgr_psoc_try_get_ref psoc wa.ext with ⟨s, e1⟩
      by_cases hs1 : s = QDF_STATUS_SUCCESS
      · subst hs1
        rcases hL : c.mlme_get_psoc_obj psoc e1 with ⟨m, e2⟩
        by_cases hm : m = 0
        · simp [mac_open, hA, hp, World.store, hG, QDF_IS_STATUS_ERROR, hL, hm,
            mac_open_fail] at hs
        · cases cds_cfg with
          | none =>
            simp [mac_open, hA, hp, World.store, hG, QDF_IS_STATUS_ERROR, hL, hm] at hs
          | some cfg =>
            by_cases hd : cfg.driver_type = 0
            all_goals
              simp only [mac_open, hA, hp, World.store, hG, QDF_IS_STATUS_ERROR, hL, hm,
                World.invoke, if_false, decide_False, decide_True, ne_eq, not_true_eq_false,
                Bool.false_eq_true, hd, not_false_eq_true, if_true] at hs ⊢
              split_ifs at hs with h1 h2
              · simp only [← h1, ← h2, not_true_eq_false, if_false]
                refine ⟨cfg, p, _, e2, rfl, ?_, rfl⟩
                simp [hd]
              · simp only [mac_open_fail, Ret.status.injEq] at hs
                exact absurd hs.symm h2
              · simp [mac_open_fail] at hs
      · simp [mac_open, hA, hp, World.store, hG, QDF_IS_STATUS_ERROR, hs1] at hs


/-- What `mac_free_context_buffer` does to the collaborators' state and to the
pointer variable. -/
theorem free_effect {E : Type} (b : Build) (c : Collaborators E) (w : World E) :
    (mac_free_context_buffer b c w).ext =
      (if b.WLAN_ALLOCATE_GLOBAL_BUFFERS_DYNAMICALLY then
        c.qdf_mem_free w.global_mac_context_ptr w.ext else w.ext) ∧
    (mac_free_context_buffer b c w).global_mac_context_ptr =
      (if b.WLAN_ALLOCATE_GLOBAL_BUFFERS_DYNAMICALLY then 0 else w.global_mac_context_ptr) := by
  unfold mac_free_context_buffer
  split <;> simp_all [World.log]

/-- What `mac_allocate_context_buffer` does to the pointer variable. -/
theorem alloc_ptr {E : Type} (b : Build) (c : Collaborators E) (w : World E) :
    (mac_allocate_context_buffer b c w).2.global_mac_context_ptr =
      (if b.WLAN_ALLOCATE_GLOBAL_BUFFERS_DYNAMICALLY then (mac_allocate_context_buffer b c w).1
        else w.global_mac_context_ptr) := by
  unfold mac_allocate_context_buffer
  split <;> simp_all [World.log]

/-- Every run of `mac_open` with a non-null `pHalHandle`, with what it returns,
the calls it makes, and what it leaves in the collaborators' state, in the
pointer variable and, where no collaborator is handed the block, in the
block.  `a`, `g` and `l` are the results of the allocation, of the reference
acquisition and of the MLME lookup. -/
theorem mac_open_effects {E : Type} (b : Build) (c : Collaborators E) (psoc : Nat)
    (hal0 : Nat) (hdd_handle : Nat) (cds_cfg : Option cds_config_info) (w : World E)
    (a : Nat × World E) (ha : a = mac_allocate_context_buffer b c w)
    (g : QDF_STATUS × E) (hg : g = c.wlan_objmgr_psoc_try_get_ref psoc a.2.ext)
    (l : Nat × E) (hl : l = c.mlme_get_psoc_obj psoc g.2)
    (r : OpenResult E) (hr : r = mac_open b c psoc (some hal0) hdd_handle cds_cfg w) :
    (a.1 = 0 ∧ r.ret = Ret.status QDF_STATUS_E_NOMEM ∧ r.world = a.2 ∧
      r.world.calls = w.calls ++ [Call.mac_allocate_context_buffer 0]) ∨
    (a.1 ≠ 0 ∧ g.1 ≠ QDF_STATUS_SUCCESS ∧ r.ret = Ret.status QDF_STATUS_E_FAILURE ∧
      r.world.calls = w.calls ++ [Call.mac_allocate_context_buffer a.1,
        Call.wlan_objmgr_psoc_try_get_ref psoc g.1,
        Call.mac_free_context_buffer] ∧
      r.world.global_mac_context = { a.2.global_mac_context with hdd_handle := hdd_handle } ∧
      r.world.ext =
        (if b.WLAN_ALLOCATE_GLOBAL_BUFFERS_DYNAMICALLY then c.qdf_mem_free a.1 g.2 else g.2) ∧
      r.world.global_mac_context_ptr =
        (if b.WLAN_ALLOCATE_GLOBAL_BUFFERS_DYNAMICALLY then 0 else w.global_mac_context_ptr)) ∨
    (a.1 ≠ 0 ∧ g.1 = QDF_STATUS_SUCCESS ∧ l.1 = 0 ∧
      r.ret = Ret.status QDF_STATUS_E_FAILURE ∧
      r.world.calls = w.calls ++ [Call.mac_allocate_context_buffer a.1,
        Call.wlan_objmgr_psoc_try_get_ref psoc QDF_STATUS_SUCCESS,
        Call.mlme_get_psoc_obj psoc 0,
        Call.wlan_objmgr_psoc_release_ref psoc,
        Call.mac_free_context_buffer] ∧
      r.world.global_mac_context =
        { a.2.global_mac_context with hdd_handle := hdd_handle, psoc := psoc } ∧
      r.world.ext =
        (if b.WLAN_ALLOCATE_GLOBAL_BUFFERS_DYNAMICALLY then
          c.qdf_mem_free a.1 (c.wlan_objmgr_psoc_release_ref psoc l.2)
          else c.wlan_objmgr_psoc_release_ref psoc l.2) ∧
      r.world.global_mac_context_ptr =
        (if b.WLAN_ALLOCATE_GLOBAL_BUFFERS_DYNAMICALLY then 0 else w.global_mac_context_ptr)) ∨
    (a.1 ≠ 0 ∧ g.1 = QDF_STATUS_SUCCESS ∧ l.1 ≠ 0 ∧ cds_cfg = none ∧
      r.ret = Ret.undefined ∧
      r.world.calls = w.calls ++ [Call.mac_allocate_context_buffer a.1,
        Call.wlan_objmgr_psoc_try_get_ref psoc QDF_STATUS_SUCCESS,
        Call.mlme_get_psoc_obj psoc l.1]) ∨
    (∃ cfg B1, a.1 ≠ 0 ∧ g.1 = QDF_STATUS_SUCCESS ∧ l.1 ≠ 0 ∧ cds_cfg = some cfg ∧
      (B1.hdd_handle = hdd_handle ∧ B1.psoc = psoc ∧ B1.mlme_cfg = l.1 + b.offsetof_cfg) ∧
      (c.cfg_init a.1 B1 l.2).status ≠ QDF_STATUS_SUCCESS ∧
      r.ret = Ret.status QDF_STATUS_E_FAILURE ∧
      r.world.calls = w.calls ++ [Call.mac_allocate_context_buffer a.1,
        Call.wlan_objmgr_psoc_try_get_ref psoc QDF_STATUS_SUCCESS,
        Call.mlme_get_psoc_obj psoc l.1,
        Call.cfg_init a.1 (c.cfg_init a.1 B1 l.2).status,
        Call.wlan_objmgr_psoc_release_ref psoc,
        Call.mac_free_context_buffer] ∧
      r.world.ext =
        (if b.WLAN_ALLOCATE_GLOBAL_BUFFERS_DYNAMICALLY then
          c.qdf_mem_free a.1 (c.wlan_objmgr_psoc_release_ref psoc (c.cfg_init a.1 B1 l.2).ext)
          else c.wlan_objmgr_psoc_release_ref psoc (c.cfg_init a.1 B1 l.2).ext) ∧
      r.world.global_mac_context_ptr =
        (if b.WLAN_ALLOCATE_GLOBAL_BUFFERS_DYNAMICALLY then 0 else w.global_mac_context_ptr)) ∨
    (∃ cfg B1 B2, a.1 ≠ 0 ∧ g.1 = QDF_STATUS_SUCCESS ∧ l.1 ≠ 0 ∧ cds_cfg = some cfg ∧
      (B1.hdd_handle = hdd_handle ∧ B1.psoc = psoc ∧ B1.mlme_cfg = l.1 + b.offsetof_cfg) ∧
      (c.cfg_init a.1 B1 l.2).status = QDF_STATUS_SUCCESS ∧
      (c.pe_open a.1 cfg B2
        (c.sys_init_globals a.1 (c.cfg_init a.1 B1 l.2).ctx
          (c.cfg_init a.1 B1 l.2).ext).ext).status ≠ QDF_STATUS_SUCCESS ∧
      r.ret = Ret.status
        (c.pe_open a.1 cfg B2
          (c.sys_init_globals a.1 (c.cfg_init a.1 B1 l.2).ctx
            (c.cfg_init a.1 B1 l.2).ext).ext).status ∧
      r.world.calls = w.calls ++ [Call.mac_allocate_context_buffer a.1,
        Call.wlan_objmgr_psoc_try_get_ref psoc QDF_STATUS_SUCCESS,
        Call.mlme_get_psoc_obj psoc l.1,
        Call.cfg_init a.1 QDF_STATUS_SUCCESS,
        Call.sys_init_globals a.1,
        Call.pe_open a.1
          (c.pe_open a.1 cfg B2
            (c.sys_init_globals a.1 (c.cfg_init a.1 B1 l.2).ctx
              (c.cfg_init a.1 B1 l.2).ext).ext).status,
        Call.cfg_de_init a.1,
        Call.wlan_objmgr_psoc_release_ref psoc,
        Call.mac_free_context_buffer] ∧
      r.world.ext =
        (if b.WLAN_ALLOCATE_GLOBAL_BUFFERS_DYNAMICALLY then
          c.qdf_mem_free a.1 (c.wlan_objmgr_psoc_release_ref psoc
            (c.cfg_de_init a.1
              (c.pe_open a.1 cfg B2
                (c.sys_init_globals a.1 (c.cfg_init a.1 B1 l.2).ctx
                  (c.cfg_init a.1 B1 l.2).ext).ext).ctx
              (c.pe_open a.1 cfg B2
                (c.sys_init_globals a.1 (c.cfg_init a.1 B1 l.2).ctx
                  (c.cfg_init a.1 B1 l.2).ext).ext).ext).ext)
          else c.wlan_objmgr_psoc_release_ref psoc
            (c.cfg_de_init a.1
              (c.pe_open a.1 cfg B2
                (c.sys_init_globals a.1 (c.cfg_init a.1 B1 l.2).ctx
                  (c.cfg_init a.1 B1 l.2).ext).ext).ctx
              (c.pe_open a.1 cfg B2
                (c.sys_init_globals a.1 (c.cfg_init a.1 B1 l.2).ctx
                  (c.cfg_init a.1 B1 l.2).ext).ext).ext).ext) ∧
      r.world.global_mac_context_ptr =
        (if b.WLAN_ALLOCATE_GLOBAL_BUFFERS_DYNAMICALLY then 0 else w.global_mac_context_ptr)) ∨
    (∃ cfg B1 B2, a.1 ≠ 0 ∧ g.1 = QDF_STATUS_SUCCESS ∧ l.1 ≠ 0 ∧ cds_cfg = some cfg ∧
      (B1.hdd_handle = hdd_handle ∧ B1.psoc = psoc ∧ B1.mlme_cfg = l.1 + b.offsetof_cfg) ∧
      (c.cfg_init a.1 B1 l.2).status = QDF_STATUS_SUCCESS ∧
      r.ret = Ret.status QDF_STATUS_SUCCESS ∧ r.hal = some a.1 ∧
      r.world.calls = w.calls ++ [Call.mac_allocate_context_buffer a.1,
        Call.wlan_objmgr_psoc_try_get_ref psoc QDF_STATUS_SUCCESS,
        Call.mlme_get_psoc_obj psoc l.1,
        Call.cfg_init a.1 QDF_STATUS_SUCCESS,
        Call.sys_init_globals a.1,
        Call.pe_open a.1 QDF_STATUS_SUCCESS] ∧
      r.world.ext =
        (c.pe_open a.1 cfg B2
          (c.sys_init_globals a.1 (c.cfg_init a.1 B1 l.2).ctx
            (c.cfg_init a.1 B1 l.2).ext).ext).ext ∧
      r.world.global_mac_context_ptr = a.2.global_mac_context_ptr) := by
  subst hr hl hg ha
  have hac := alloc_calls b c w
  have hap := alloc_ptr b c w
  rcases hA : mac_allocate_context_buffer b c w with ⟨p, wa⟩
  rw [hA] at hac hap
  simp only at hac hap ⊢
  by_cases hp : p = 0
  · left
    subst hp
    simp [mac_open, hA, hac]
  · right
    rcases hG : c.wlan_objmgr_psoc_try_get_ref psoc wa.ext with ⟨s, e1⟩
    by_cases hs : s = QDF_STATUS_SUCCESS
    · right
      subst hs
      rcases hL : c.mlme_get_psoc_obj psoc e1 with ⟨m, e2⟩
      by_cases hm : m = 0
      · left
        subst hm
        have e : mac_open b c psoc (some hal0) hdd_handle cds_cfg w =
            mac_open_fail b c psoc QDF_STATUS_E_FAILURE hal0
              { wa with
                global_mac_context :=
                  { wa.global_mac_context with hdd_handle := hdd_handle, psoc := psoc }
                ext := e2
                calls := wa.calls ++ [Call.wlan_objmgr_psoc_try_get_ref psoc QDF_STATUS_SUCCESS,
                  Call.mlme_get_psoc_obj psoc 0] } := by
          simp [mac_open, hA, hp, World.store, hG, QDF_IS_STATUS_ERROR, hL]
        rw [e]
        refine ⟨hp, rfl, rfl, rfl, ?_, ?_, ?_, ?_⟩
        · simp [mac_open_fail, World.notify, free_calls, hac]
        · simp [mac_open_fail, World.notify, free_block]
        · simp only [mac_open_fail, World.notify]
          rw [(free_effect b c _).1]
          by_cases hd : b.WLAN_ALLOCATE_GLOBAL_BUFFERS_DYNAMICALLY = true <;> simp_all
        · simp only [mac_open_fail, World.notify]
          rw [(free_effect b c _).2]
          by_cases hd : b.WLAN_ALLOCATE_GLOBAL_BUFFERS_DYNAMICALLY = true <;> simp_all
      · right
        cases cds_cfg with
        | none =>
          left
          refine ⟨hp, rfl, hm, rfl, ?_, ?_⟩
          · simp [mac_open, hA, hp, World.store, hG, QDF_IS_STATUS_ERROR, hL, hm]
          · simp [mac_open, hA, hp, World.store, hG, QDF_IS_STATUS_ERROR, hL, hm, hac]
        | some cfg =>
          right
          by_cases hd : cfg.driver_type = 0
          all_goals
            simp only [mac_open, hA, hp, hac, World.store, hG, QDF_IS_STATUS_ERROR, hL, hm,
              World.invoke, if_false, decide_False, decide_True, ne_eq, not_true_eq_false,
              Bool.false_eq_true, hd, not_false_eq_true, if_true]
            generalize hI : c.cfg_init p _ _ = ri
            obtain ⟨B1, hb1, hb2, hb3, hB1⟩ : ∃ B1 : tAniSirGlobal,
                B1.hdd_handle = hdd_handle ∧ B1.psoc = psoc ∧
                B1.mlme_cfg = m + b.offsetof_cfg ∧ c.cfg_init p B1 e2 = ri :=
              ⟨_, rfl, rfl, rfl, hI⟩
            clear hI
            rcases ri with ⟨si, ci, ei⟩
            by_cases hsi : si = QDF_STATUS_SUCCESS
            · right
              subst hsi
              simp only [not_true_eq_false, if_false]
              generalize hS : c.sys_init_globals p _ _ = rg
              rcases rg with ⟨sg, cg, eg⟩
              simp only []
              generalize hO : c.pe_open p cfg _ _ = ro
              obtain ⟨B2, hB2⟩ : ∃ B2, c.pe_open p cfg B2 eg = ro := ⟨_, hO⟩
              clear hO
              rcases ro with ⟨so, co, eo⟩
              by_cases hso : so = QDF_STATUS_SUCCESS
              · right
                subst hso
                refine ⟨cfg, B1, B2, ?_⟩
                simp [hB1, hS, hB2, hap, hb1, hb2, hb3]
              · left
                have hso2 : ¬ QDF_STATUS_SUCCESS = so := fun h => hso h.symm
                refine ⟨cfg, B1, B2, ?_⟩
                simp only [hB1, hS, hB2, hso2, not_false_eq_true, if_true, mac_open_fail,
                  World.notify, (free_effect b c _).1, (free_effect b c _).2, free_calls]
                by_cases hdy : b.WLAN_ALLOCATE_GLOBAL_BUFFERS_DYNAMICALLY = true <;>
                  simp_all
            · left
              have hsi2 : ¬ QDF_STATUS_SUCCESS = si := fun h => hsi h.symm
              refine ⟨cfg, B1, ?_⟩
              simp only [hB1, hsi2, not_false_eq_true, if_true, mac_open_fail, World.notify,
                (free_effect b c _).1, (free_effect b c _).2, free_calls]
              by_cases hdy : b.WLAN_ALLOCATE_GLOBAL_BUFFERS_DYNAMICALLY = true <;>
                simp_all
    · left
      have e : mac_open b c psoc (some hal0) hdd_handle cds_cfg w =
          { ret := Ret.status QDF_STATUS_E_FAILURE, hal := some hal0,
            world := mac_free_context_buffer b c
              { wa with
                global_mac_context := { wa.global_mac_context with hdd_handle := hdd_handle }
                ext := e1
                calls := wa.calls ++ [Call.wlan_objmgr_psoc_try_get_ref psoc s] } } := by
        simp [mac_open, hA, hp, World.store, hG, QDF_IS_STATUS_ERROR, hs]
      rw [e]
      refine ⟨hp, hs, rfl, ?_, ?_, ?_, ?_⟩
      · simp [free_calls, hac]
      · simp [free_block]
      · simp only []
        rw [(free_effect b c _).1]
        by_cases hd : b.WLAN_ALLOCATE_GLOBAL_BUFFERS_DYNAMICALLY = true <;> simp_all
      · simp only []
        rw [(free_effect b c _).2]
        by_cases hd : b.WLAN_ALLOCATE_GLOBAL_BUFFERS_DYNAMICALLY = true <;> simp_all

/-- What a run of `mac_close` on a valid handle leaves: the block is the one
`pe_close` and `cfg_de_init` left with `pdev`, `mlme_cfg` and `psoc` cleared;
the collaborators' state has gone through the pdev release (if a pdev was
held), the psoc release and, under the dynamic strategy, `qdf_mem_free` of
the block; the pointer variable is null under the dynamic strategy. -/
theorem mac_close_effects {E : Type} (b : Build) (c : Collaborators E) (hHal : Nat)
    (w : World E) (hnz : hHal ≠ 0) (hv : hHal = context_addr b w) :
    (mac_close b c hHal w).2.global_mac_context =
      { close_view c hHal w with pdev := 0, mlme_cfg := 0, psoc := 0 } ∧
    (mac_close b c hHal w).2.ext =
      (if b.WLAN_ALLOCATE_GLOBAL_BUFFERS_DYNAMICALLY then
        c.qdf_mem_free hHal
          (c.wlan_objmgr_psoc_release_ref (close_view c hHal w).psoc
            (if (close_view c hHal w).pdev ≠ 0 then
              c.wlan_objmgr_pdev_release_ref (close_view c hHal w).pdev (close_ext c hHal w)
              else close_ext c hHal w))
        else
          c.wlan_objmgr_psoc_release_ref (close_view c hHal w).psoc
            (if (close_view c hHal w).pdev ≠ 0 then
              c.wlan_objmgr_pdev_release_ref (close_view c hHal w).pdev (close_ext c hHal w)
              else close_ext c hHal w)) ∧
    (mac_close b c hHal w).2.global_mac_context_ptr =
      (if b.WLAN_ALLOCATE_GLOBAL_BUFFERS_DYNAMICALLY then 0 else w.global_mac_context_ptr) := by
  have k2 : ((w.invoke (fun _ => Call.pe_close hHal) (c.pe_close hHal)).2.invoke
        (fun _ => Call.cfg_de_init hHal) (c.cfg_de_init hHal)).2.global_mac_context =
      close_view c hHal w := by
    simp [World.invoke, close_view]
  have k5 : ((w.invoke (fun _ => Call.pe_close hHal) (c.pe_close hHal)).2.invoke
        (fun _ => Call.cfg_de_init hHal) (c.cfg_de_init hHal)).2.ext =
      close_ext c hHal w := by
    simp [World.invoke, close_ext]
  have k6 : ((w.invoke (fun _ => Call.pe_close hHal) (c.pe_close hHal)).2.invoke
        (fun _ => Call.cfg_de_init hHal) (c.cfg_de_init hHal)).2.global_mac_context_ptr =
      w.global_mac_context_ptr := by
    simp [World.invoke]
  have k3 : context_addr b
      ((w.invoke (fun _ => Call.pe_close hHal) (c.pe_close hHal)).2.invoke
        (fun _ => Call.cfg_de_init hHal) (c.cfg_de_init hHal)).2 = hHal := by
    rw [hv]; simp [context_addr, World.invoke]
  have hptr : b.WLAN_ALLOCATE_GLOBAL_BUFFERS_DYNAMICALLY = true →
      w.global_mac_context_ptr = hHal := by
    intro hd
    rw [hv]; simp [context_addr, hd]
  simp only [mac_close, hnz, if_false]
  generalize ((w.invoke (fun _ => Call.pe_close hHal) (c.pe_close hHal)).2.invoke
        (fun _ => Call.cfg_de_init hHal) (c.cfg_de_init hHal)).2 = w2 at k2 k3 k5 k6 ⊢
  generalize close_view c hHal w = v at k2 ⊢
  generalize close_ext c hHal w = ev at k5 ⊢
  rcases w2 with ⟨ptr, blk, ext, calls⟩
  simp only at k2 k5 k6
  subst k2 k5 k6
  simp only [k3, ne_eq, not_true_eq_false, if_false, free_block, (free_effect b c _).1,
    (free_effect b c _).2]
  by_cases hpd : blk.pdev = 0 <;>
    by_cases hd : b.WLAN_ALLOCATE_GLOBAL_BUFFERS_DYNAMICALLY = true <;>
      simp_all [World.store, World.notify]

/-- What `mac_stop` leaves: the block and the collaborators' state are those
`cfg_cleanup` returned, run on what `pe_stop` returned; the pointer variable
is untouched. -/
theorem mac_stop_effects {E : Type} (c : Collaborators E) (mac_handle : Nat) (w : World E) :
    (mac_stop c mac_handle w).2.global_mac_context =
      (c.cfg_cleanup mac_handle (c.pe_stop mac_handle w.global_mac_context w.ext).ctx
        (c.pe_stop mac_handle w.global_mac_context w.ext).ext).ctx ∧
    (mac_stop c mac_handle w).2.ext =
      (c.cfg_cleanup mac_handle (c.pe_stop mac_handle w.global_mac_context w.ext).ctx
        (c.pe_stop mac_handle w.global_mac_context w.ext).ext).ext ∧
    (mac_stop c mac_handle w).2.global_mac_context_ptr = w.global_mac_context_ptr := by
  simp [mac_stop, World.invoke]

/-! ## Rollback and success of `mac_open` -/

/-- C1: rollback of `mac_open`.  Write `t` for the calls `mac_open` makes and
`a`, `g`, `l` for what the allocation, the reference acquisition and the
MLME lookup return.  Whatever the collaborators do, `t` extends the earlier
calls, and for each failure point the calls are exactly the acquisitions up
to the failing step followed by the matching releases in reverse order, and
those releases are really carried out on the collaborators' state:
* allocation returning null: nothing follows, the state is the one the
  allocation left;
* a failed reference acquisition: the free only; the collaborators' state is
  the one the acquisition left, passed under the dynamic strategy through
  `qdf_mem_free` of the allocated pointer;
* a missing MLME object or a failed `cfg_init`: the psoc release and the free
  (no `cfg_de_init`); the state the failing step left is passed through
  `wlan_objmgr_psoc_release_ref` of the psoc and then the free;
* a failed `pe_open`: `cfg_de_init`, the psoc release and the free; the state
  `pe_open` left is passed through `cfg_de_init`, the release and the free.
After every rollback the pointer variable of the dynamic strategy is null.
No later acquisition step appears in `t`. -/
theorem mac_open_rollback {E : Type} (b : Build) (c : Collaborators E) (psoc : Nat)
    (pHalHandle : Option Nat) (hdd_handle : Nat) (cds_cfg : Option cds_config_info)
    (w : World E) (t : List Call)
    (ht : t = calls_since w (mac_open b c psoc pHalHandle hdd_handle cds_cfg w).world)
    (a : Nat × World E) (ha : a = mac_allocate_context_buffer b c w)
    (g : QDF_STATUS × E) (hg : g = c.wlan_objmgr_psoc_try_get_ref psoc a.2.ext)
    (l : Nat × E) (hl : l = c.mlme_get_psoc_obj psoc g.2) :
    (mac_open b c psoc pHalHandle hdd_handle cds_cfg w).world.calls = w.calls ++ t ∧
    (Call.mac_allocate_context_buffer 0 ∈ t →
      t = [Call.mac_allocate_context_buffer 0] ∧ a.1 = 0 ∧
      (mac_open b c psoc pHalHandle hdd_handle cds_cfg w).world = a.2) ∧
    (∀ s, s ≠ QDF_STATUS_SUCCESS → Call.wlan_objmgr_psoc_try_get_ref psoc s ∈ t →
      ∃ p, p ≠ 0 ∧
        t = [Call.mac_allocate_context_buffer p,
          Call.wlan_objmgr_psoc_try_get_ref psoc s,
          Call.mac_free_context_buffer] ∧
        p = a.1 ∧ s = g.1 ∧
        (mac_open b c psoc pHalHandle hdd_handle cds_cfg w).world.ext =
          (if b.WLAN_ALLOCATE_GLOBAL_BUFFERS_DYNAMICALLY then c.qdf_mem_free p g.2
            else g.2) ∧
        (mac_open b c psoc pHalHandle hdd_handle cds_cfg w).world.global_mac_context_ptr =
          (if b.WLAN_ALLOCATE_GLOBAL_BUFFERS_DYNAMICALLY then 0
            else w.global_mac_context_ptr)) ∧
    (Call.mlme_get_psoc_obj psoc 0 ∈ t →
      ∃ p, p ≠ 0 ∧
        t = [Call.mac_allocate_context_buffer p,
          Call.wlan_objmgr_psoc_try_get_ref psoc QDF_STATUS_SUCCESS,
          Call.mlme_get_psoc_obj psoc 0,
          Call.wlan_objmgr_psoc_release_ref psoc,
          Call.mac_free_context_buffer] ∧
        p = a.1 ∧ g.1 = QDF_STATUS_SUCCESS ∧ l.1 = 0 ∧
        (mac_open b c psoc pHalHandle hdd_handle cds_cfg w).world.ext =
          (if b.WLAN_ALLOCATE_GLOBAL_BUFFERS_DYNAMICALLY then
            c.qdf_mem_free p (c.wlan_objmgr_psoc_release_ref psoc l.2)
            else c.wlan_objmgr_psoc_release_ref psoc l.2) ∧
        (mac_open b c psoc pHalHandle hdd_handle cds_cfg w).world.global_mac_context_ptr =
          (if b.WLAN_ALLOCATE_GLOBAL_BUFFERS_DYNAMICALLY then 0
            else w.global_mac_context_ptr)) ∧
    (∀ q s, s ≠ QDF_STATUS_SUCCESS → Call.cfg_init q s ∈ t →
      ∃ m, q ≠ 0 ∧ m ≠ 0 ∧
        t = [Call.mac_allocate_context_buffer q,
          Call.wlan_objmgr_psoc_try_get_ref psoc QDF_STATUS_SUCCESS,
          Call.mlme_get_psoc_obj psoc m,
          Call.cfg_init q s,
          Call.wlan_objmgr_psoc_release_ref psoc,
          Call.mac_free_context_buffer] ∧
        q = a.1 ∧ g.1 = QDF_STATUS_SUCCESS ∧ m = l.1 ∧
        ∃ B1, s = (c.cfg_init q B1 l.2).status ∧
          (mac_open b c psoc pHalHandle hdd_handle cds_cfg w).world.ext =
            (if b.WLAN_ALLOCATE_GLOBAL_BUFFERS_DYNAMICALLY then
              c.qdf_mem_free q
                (c.wlan_objmgr_psoc_release_ref psoc (c.cfg_init q B1 l.2).ext)
              else c.wlan_objmgr_psoc_release_ref psoc (c.cfg_init q B1 l.2).ext) ∧
          (mac_open b c psoc pHalHandle hdd_handle cds_cfg w).world.global_mac_context_ptr =
            (if b.WLAN_ALLOCATE_GLOBAL_BUFFERS_DYNAMICALLY then 0
              else w.global_mac_context_ptr)) ∧
    (∀ q s, s ≠ QDF_STATUS_SUCCESS → Call.pe_open q s ∈ t →
      ∃ m, q ≠ 0 ∧ m ≠ 0 ∧
        t = [Call.mac_allocate_context_buffer q,
          Call.wlan_objmgr_psoc_try_get_ref psoc QDF_STATUS_SUCCESS,
          Call.mlme_get_psoc_obj psoc m,
          Call.cfg_init q QDF_STATUS_SUCCESS,
          Call.sys_init_globals q,
          Call.pe_open q s,
          Call.cfg_de_init q,
          Call.wlan_objmgr_psoc_release_ref psoc,
          Call.mac_free_context_buffer] ∧
        q = a.1 ∧ g.1 = QDF_STATUS_SUCCESS ∧ m = l.1 ∧
        ∃ cfg B1 B2 e3, cds_cfg = some cfg ∧
          (c.cfg_init q B1 l.2).status = QDF_STATUS_SUCCESS ∧
          e3 = (c.sys_init_globals q (c.cfg_init q B1 l.2).ctx
            (c.cfg_init q B1 l.2).ext).ext ∧
          s = (c.pe_open q cfg B2 e3).status ∧
          (mac_open b c psoc pHalHandle hdd_handle cds_cfg w).world.ext =
            (if b.WLAN_ALLOCATE_GLOBAL_BUFFERS_DYNAMICALLY then
              c.qdf_mem_free q
                (c.wlan_objmgr_psoc_release_ref psoc
                  (c.cfg_de_init q (c.pe_open q cfg B2 e3).ctx
                    (c.pe_open q cfg B2 e3).ext).ext)
              else
                c.wlan_objmgr_psoc_release_ref psoc
                  (c.cfg_de_init q (c.pe_open q cfg B2 e3).ctx
                    (c.pe_open q cfg B2 e3).ext).ext) ∧
          (mac_open b c psoc pHalHandle hdd_handle cds_cfg w).world.global_mac_context_ptr =
            (if b.WLAN_ALLOCATE_GLOBAL_BUFFERS_DYNAMICALLY then 0
              else w.global_mac_context_ptr)) := by
  cases pHalHandle with
  | none =>
    have h0 : t = [] := by rw [ht]; simp [calls_since, mac_open]
    subst h0
    simp [mac_open]
  | some hal0 =>
    rcases mac_open_effects b c psoc hal0 hdd_handle cds_cfg w a ha g hg l hl _ rfl with
      ⟨h0, -, hw, hc⟩ | ⟨hp, hs, -, hc, -, he, hpt⟩ | ⟨hp, hs, hm, -, hc, -, he, hpt⟩ |
      ⟨hp, hs, hm, -, -, hc⟩ | ⟨cfg, B1, hp, hs, hm, hcf, -, hi, -, hc, he, hpt⟩ |
      ⟨cfg, B1, B2, hp, hs, hm, hcf, -, hi, ho, -, hc, he, hpt⟩ |
      ⟨cfg, B1, B2, hp, hs, hm, hcf, -, hi, -, -, hc, -, -⟩
    all_goals
      have h1 := calls_since_append w _ _ hc
      rw [← ht] at h1
      clear ht
      subst h1
      refine ⟨hc, ?_⟩
      clear hc
    · refine ⟨fun _ => ⟨rfl, h0, hw⟩, ?_, ?_, ?_, ?_⟩ <;> simp
    · refine ⟨?_, ?_, ?_, ?_, ?_⟩
      · intro h; simp at h; exact absurd h.symm hp
      · intro s1 _ h
        simp at h
        subst h
        exact ⟨a.1, hp, rfl, rfl, rfl, he, hpt⟩
      · simp
      · simp
      · simp
    · refine ⟨?_, ?_, ?_, ?_, ?_⟩
      · intro h; simp at h; exact absurd h.symm hp
      · intro s1 h1 h; simp at h; exact absurd h h1
      · intro _
        exact ⟨a.1, hp, rfl, rfl, hs, hm, he, hpt⟩
      · simp
      · simp
    · refine ⟨?_, ?_, ?_, ?_, ?_⟩
      · intro h; simp at h; exact absurd h.symm hp
      · intro s1 h1 h; simp at h; exact absurd h h1
      · intro h; simp at h; exact absurd h.symm hm
      · simp
      · simp
    · refine ⟨?_, ?_, ?_, ?_, ?_⟩
      · intro h; simp at h; exact absurd h.symm hp
      · intro s1 h1 h; simp at h; exact absurd h h1
      · intro h; simp at h; exact absurd h.symm hm
      · intro q s1 _ h
        simp at h
        obtain ⟨rfl, rfl⟩ := h
        exact ⟨l.1, hp, hm, rfl, rfl, hs, rfl, B1, rfl, he, hpt⟩
      · simp
    · refine ⟨?_, ?_, ?_, ?_, ?_⟩
      · intro h; simp at h; exact absurd h.symm hp
      · intro s1 h1 h; simp at h; exact absurd h h1
      · intro h; simp at h; exact absurd h.symm hm
      · intro q s1 h1 h; simp at h; exact absurd h.2 h1
      · intro q s1 _ h
        simp at h
        obtain ⟨rfl, rfl⟩ := h
        exact ⟨l.1, hp, hm, rfl, rfl, hs, rfl, cfg, B1, B2, _, hcf, hi, rfl, rfl, he, hpt⟩
    · refine ⟨?_, ?_, ?_, ?_, ?_⟩
      · intro h; simp at h; exact absurd h.symm hp
      · intro s1 h1 h; simp at h; exact absurd h h1
      · intro h; simp at h; exact absurd h.symm hm
      · intro q s1 h1 h; simp at h; exact absurd h.2 h1
      · intro q s1 h1 h; simp at h; exact absurd h.2 h1

/-- Witness for C1: dynamic strategy with the ledger, `pe_open` fails.  The
calls are the nine of the last case, and afterwards nothing is outstanding:
the ledger is back to what it was before the call and the pointer variable
is null. -/
theorem mac_open_rollback_witness :
    calls_since ledger_boot_world
        (mac_open dynamic_build
          (ledger_collaborators 64 QDF_STATUS_SUCCESS 5 QDF_STATUS_SUCCESS QDF_STATUS_E_NOMEM
            QDF_STATUS_SUCCESS)
          7 (some 0) 9 (some { driver_type := 0 }) ledger_boot_world).world =
      [Call.mac_allocate_context_buffer 64,
        Call.wlan_objmgr_psoc_try_get_ref 7 QDF_STATUS_SUCCESS,
        Call.mlme_get_psoc_obj 7 5,
        Call.cfg_init 64 QDF_STATUS_SUCCESS,
        Call.sys_init_globals 64,
        Call.pe_open 64 QDF_STATUS_E_NOMEM,
        Call.cfg_de_init 64,
        Call.wlan_objmgr_psoc_release_ref 7,
        Call.mac_free_context_buffer] ∧
    (mac_open dynamic_build
        (ledger_collaborators 64 QDF_STATUS_SUCCESS 5 QDF_STATUS_SUCCESS QDF_STATUS_E_NOMEM
          QDF_STATUS_SUCCESS)
        7 (some 0) 9 (some { driver_type := 0 }) ledger_boot_world).world.ext =
      { psoc_refs := 0, blocks := 0, cfg_stores := 0 } ∧
    (mac_open dynamic_build
        (ledger_collaborators 64 QDF_STATUS_SUCCESS 5 QDF_STATUS_SUCCESS QDF_STATUS_E_NOMEM
          QDF_STATUS_SUCCESS)
        7 (some 0) 9 (some { driver_type := 0 })
        ledger_boot_world).world.global_mac_context_ptr = 0 := by
  obtain ⟨m, -, -, ht, -, -, hml, cfg, B1, B2, e3, -, -, he3, -, hext, hptr⟩ :=
    (mac_open_rollback dynamic_build
      (ledger_collaborators 64 QDF_STATUS_SUCCESS 5 QDF_STATUS_SUCCESS QDF_STATUS_E_NOMEM
        QDF_STATUS_SUCCESS)
      7 (some 0) 9 (some { driver_type := 0 }) ledger_boot_world _ rfl _ rfl _ rfl
      _ rfl).2.2.2.2.2 64 QDF_STATUS_E_NOMEM (by decide) (by decide)
  refine ⟨?_, ?_, ?_⟩
  · rw [ht, hml]; rfl
  · rw [hext, he3]; rfl
  · rw [hptr]; rfl

/-- C3, as stated, fails: with a handle variable holding `0`, a context that
is allocated, a psoc reference that is acquired, an MLME object that is found
and a `cfg_init` that fails, `mac_open` returns `QDF_STATUS_E_FAILURE` and the
handle variable no longer holds `0`. -/
theorem mac_open_failure_overwrites_handle :
    (mac_open static_build
        (scripted 0 QDF_STATUS_SUCCESS 5 QDF_STATUS_E_FAILURE QDF_STATUS_SUCCESS
          QDF_STATUS_SUCCESS)
        7 (some 0) 9 (some { driver_type := 0 }) boot_world).ret
      = Ret.status QDF_STATUS_E_FAILURE ∧
    (mac_open static_build
        (scripted 0 QDF_STATUS_SUCCESS 5 QDF_STATUS_E_FAILURE QDF_STATUS_SUCCESS
          QDF_STATUS_SUCCESS)
        7 (some 0) 9 (some { driver_type := 0 }) boot_world).hal ≠ some 0 := by
  decide

/-- C3, amended: when `mac_open` returns a non-success status, `*pHalHandle`
is unchanged provided neither `cfg_init` nor `pe_open` is the step that
failed; when `cfg_init` or `pe_open` failed, `*pHalHandle` holds the pointer
to the context block that was allocated (the store at line 152 precedes both
calls and is not undone). -/
theorem mac_open_handle_on_failure {E : Type} (b : Build) (c : Collaborators E)
    (psoc : Nat) (pHalHandle : Option Nat) (hdd_handle : Nat)
    (cds_cfg : Option cds_config_info) (w : World E) (t : List Call)
    (ht : t = calls_since w (mac_open b c psoc pHalHandle hdd_handle cds_cfg w).world)
    (s : QDF_STATUS)
    (hr : (mac_open b c psoc pHalHandle hdd_handle cds_cfg w).ret = Ret.status s)
    (hs : s ≠ QDF_STATUS_SUCCESS) :
    ((∀ q s1, s1 ≠ QDF_STATUS_SUCCESS → Call.cfg_init q s1 ∉ t ∧ Call.pe_open q s1 ∉ t) →
      (mac_open b c psoc pHalHandle hdd_handle cds_cfg w).hal = pHalHandle) ∧
    (∀ q s1, s1 ≠ QDF_STATUS_SUCCESS → Call.cfg_init q s1 ∈ t ∨ Call.pe_open q s1 ∈ t →
      q ≠ 0 ∧ Call.mac_allocate_context_buffer q ∈ t ∧
      (mac_open b c psoc pHalHandle hdd_handle cds_cfg w).hal = some q) := by
  rcases mac_open_cases b c psoc pHalHandle hdd_handle cds_cfg w with
    ⟨hn, _, hh, hw⟩ | ⟨_, hn, _, hh, hc⟩ | ⟨_, p, s2, hn, hp, hs2, _, hh, hc⟩ |
    ⟨_, p, hn, hp, _, hh, hc⟩ | ⟨_, p, m, hn, hp, hm, _, hr2, hh, hc⟩ |
    ⟨_, p, m, s2, hn, hp, hm, hs2, _, hh, hc⟩ | ⟨_, p, m, s2, hn, hp, hm, hs2, _, hh, hc⟩ |
    ⟨_, p, m, hn, hp, hm, hr2, hh, _, _, hc⟩
  · have h0 : t = [] := by rw [ht, hw]; simp [calls_since]
    subst h0
    subst hn
    simp [hh]
  all_goals
    have h0 := calls_since_append w _ _ hc
    rw [← ht] at h0
    clear ht hc
    subst h0
    rw [hh]
    subst hn
  · simp
  · simp
  · simp
  · rw [hr2] at hr; cases hr
  · refine ⟨fun h => absurd (List.mem_cons_of_mem _ (List.mem_cons_of_mem _
      (List.mem_cons_of_mem _ (List.mem_cons_self _ _)))) (h p s2 hs2).1, ?_⟩
    intro q s1 hs1 hq
    simp at hq
    obtain ⟨rfl, rfl⟩ := hq
    simp [hp]
  · refine ⟨fun h => absurd (List.mem_cons_of_mem _ (List.mem_cons_of_mem _
      (List.mem_cons_of_mem _ (List.mem_cons_of_mem _ (List.mem_cons_of_mem _
      (List.mem_cons_self _ _)))))) (h p s2 hs2).2, ?_⟩
    intro q s1 hs1 hq
    simp at hq
    rcases hq with ⟨rfl, rfl⟩ | ⟨rfl, rfl⟩
    · exact absurd rfl hs1
    · simp [hp]
  · rw [hr2] at hr; cases hr; exact absurd rfl hs

/-- Witness for C3: `pe_open` fails with `QDF_STATUS_E_NOMEM`; the handle
variable, `0` before, holds the context pointer afterwards. -/
theorem mac_open_handle_on_failure_witness :
    STATIC_CONTEXT_ADDR ≠ 0 ∧
    Call.mac_allocate_context_buffer STATIC_CONTEXT_ADDR ∈
      calls_since boot_world
        (mac_open static_build
          (scripted 0 QDF_STATUS_SUCCESS 5 QDF_STATUS_SUCCESS QDF_STATUS_E_NOMEM
            QDF_STATUS_SUCCESS)
          7 (some 0) 9 (some { driver_type := 0 }) boot_world).world ∧
    (mac_open static_build
        (scripted 0 QDF_STATUS_SUCCESS 5 QDF_STATUS_SUCCESS QDF_STATUS_E_NOMEM
          QDF_STATUS_SUCCESS)
        7 (some 0) 9 (some { driver_type := 0 }) boot_world).hal
      = some STATIC_CONTEXT_ADDR :=
  (mac_open_handle_on_failure static_build
    (scripted 0 QDF_STATUS_SUCCESS 5 QDF_STATUS_SUCCESS QDF_STATUS_E_NOMEM QDF_STATUS_SUCCESS)
    7 (some 0) 9 (some { driver_type := 0 }) boot_world _ rfl QDF_STATUS_E_NOMEM
    (by decide) (by decide)).2 STATIC_CONTEXT_ADDR QDF_STATUS_E_NOMEM (by decide)
    (Or.inr (by decide))

/-! ## `mac_start` and `mac_stop` -/

/-- C4: for a valid (non-null) context handle and non-null params, whatever
mode the context held before: if the requested driver type is
`QDF_DRIVER_TYPE_MFG`, `mac_start` makes no call and returns success;
otherwise it calls `pe_start` exactly once, on the context with the requested
type recorded, and returns the status `pe_start` returned. -/
theorem mac_start_mfg_bypass {E : Type} (b : Build) (c : Collaborators E)
    (mac_handle : Nat) (params : mac_start_params) (w : World E)
    (hnz : mac_handle ≠ 0) (hv : mac_handle = context_addr b w) :
    (params.driver_type = b.QDF_DRIVER_TYPE_MFG →
      (mac_start b c mac_handle (some params) w).1 = Ret.status QDF_STATUS_SUCCESS ∧
      (mac_start b c mac_handle (some params) w).2.calls = w.calls) ∧
    (params.driver_type ≠ b.QDF_DRIVER_TYPE_MFG →
      (mac_start b c mac_handle (some params) w).1 =
        Ret.status
          (c.pe_start mac_handle
            { w.global_mac_context with gDriverType := params.driver_type } w.ext).status ∧
      (mac_start b c mac_handle (some params) w).2.calls =
        w.calls ++ [Call.pe_start mac_handle
          (c.pe_start mac_handle
            { w.global_mac_context with gDriverType := params.driver_type } w.ext).status]) := by
  constructor
  · intro hm
    simp [mac_start, hnz, ← hv, World.store, hm]
  · intro hm
    simp [mac_start, hnz, ← hv, World.store, hm, World.invoke]

/-- Witness for C4: the stored mode is the manufacturing type, the requested
type is not; `pe_start` is called once and its failure is returned. -/
theorem mac_start_mfg_bypass_witness :
    (mac_start static_build
        (scripted 0 QDF_STATUS_SUCCESS 5 QDF_STATUS_SUCCESS QDF_STATUS_SUCCESS
          (QDF_STATUS_E_OTHER 4))
        STATIC_CONTEXT_ADDR (some { driver_type := 0 })
        { boot_world with global_mac_context := { zero_context with gDriverType := 1 } }).1
      = Ret.status (QDF_STATUS_E_OTHER 4) ∧
    (mac_start static_build
        (scripted 0 QDF_STATUS_SUCCESS 5 QDF_STATUS_SUCCESS QDF_STATUS_SUCCESS
          (QDF_STATUS_E_OTHER 4))
        STATIC_CONTEXT_ADDR (some { driver_type := 0 })
        { boot_world with global_mac_context := { zero_context with gDriverType := 1 } }).2.calls
      = [Call.pe_start STATIC_CONTEXT_ADDR (QDF_STATUS_E_OTHER 4)] :=
  (mac_start_mfg_bypass static_build
    (scripted 0 QDF_STATUS_SUCCESS 5 QDF_STATUS_SUCCESS QDF_STATUS_SUCCESS
      (QDF_STATUS_E_OTHER 4))
    STATIC_CONTEXT_ADDR { driver_type := 0 }
    { boot_world with global_mac_context := { zero_context with gDriverType := 1 } }
    (by decide) (by decide)).2 (by decide)

/-- C7: a successful `mac_open` publishes a non-null handle `p`, the pointer
the allocation returned, and `mac_close` on `p` right afterwards returns
success.  Write `a`, `g`, `l` for what the allocation, the reference
acquisition and the MLME lookup returned.  Over the two calls there is one
allocate and one free, one psoc acquisition and one psoc release, one
`cfg_init` and one `cfg_de_init` (`rel` is the pdev release, made only if a
pdev is held; the psoc released, `ps`, is the `psoc` field `mac_close` reads,
which is the psoc acquired as long as the collaborators that are handed the
context leave that field alone).  The releases are really carried out: the
collaborators' state after `mac_open` is the one `pe_open` returned, reached
through the acquisition, the lookup, `cfg_init` and `sys_init_globals`; the
state after `mac_close` is that state passed through `pe_close` and
`cfg_de_init`, the pdev release if any, `wlan_objmgr_psoc_release_ref` of
`ps` and, under the dynamic strategy, `qdf_mem_free` of `p`.  At the end the
`psoc`, `mlme_cfg` and `pdev` fields of the block are null, and under the
dynamic strategy `global_mac_context` is `NULL`. -/
theorem mac_open_close_balance {E : Type} (b : Build) (c : Collaborators E) (psoc : Nat)
    (pHalHandle : Option Nat) (hdd_handle : Nat) (cds_cfg : Option cds_config_info)
    (w : World E)
    (a : Nat × World E) (ha : a = mac_allocate_context_buffer b c w)
    (g : QDF_STATUS × E) (hg : g = c.wlan_objmgr_psoc_try_get_ref psoc a.2.ext)
    (l : Nat × E) (hl : l = c.mlme_get_psoc_obj psoc g.2)
    (hs : (mac_open b c psoc pHalHandle hdd_handle cds_cfg w).ret
      = Ret.status QDF_STATUS_SUCCESS) :
    ∃ p m rel ps, p ≠ 0 ∧
      (mac_open b c psoc pHalHandle hdd_handle cds_cfg w).hal = some p ∧
      (mac_close b c p (mac_open b c psoc pHalHandle hdd_handle cds_cfg w).world).1
        = Ret.status QDF_STATUS_SUCCESS ∧
      (rel = [] ∨ ∃ pd, pd ≠ 0 ∧ rel = [Call.wlan_objmgr_pdev_release_ref pd]) ∧
      (open_frame c → close_frame c → ps = psoc) ∧
      (mac_close b c p (mac_open b c psoc pHalHandle hdd_handle cds_cfg w).world).2.calls =
        w.calls ++ ([Call.mac_allocate_context_buffer p,
          Call.wlan_objmgr_psoc_try_get_ref psoc QDF_STATUS_SUCCESS,
          Call.mlme_get_psoc_obj psoc m,
          Call.cfg_init p QDF_STATUS_SUCCESS,
          Call.sys_init_globals p,
          Call.pe_open p QDF_STATUS_SUCCESS,
          Call.pe_close p,
          Call.cfg_de_init p] ++ rel ++
          [Call.wlan_objmgr_psoc_release_ref ps, Call.mac_free_context_buffer]) ∧
      (mac_close b c p
        (mac_open b c psoc pHalHandle hdd_handle cds_cfg w).world).2.global_mac_context.psoc
        = 0 ∧
      (mac_close b c p
        (mac_open b c psoc pHalHandle hdd_handle cds_cfg w).world).2.global_mac_context.mlme_cfg
        = 0 ∧
      (mac_close b c p
        (mac_open b c psoc pHalHandle hdd_handle cds_cfg w).world).2.global_mac_context.pdev
        = 0 ∧
      (b.WLAN_ALLOCATE_GLOBAL_BUFFERS_DYNAMICALLY = true →
        (mac_close b c p
          (mac_open b c psoc pHalHandle hdd_handle cds_cfg w).world).2.global_mac_context_ptr
          = 0) ∧
      p = a.1 ∧
      (b.WLAN_ALLOCATE_GLOBAL_BUFFERS_DYNAMICALLY = true → p = (c.qdf_mem_malloc w.ext).ptr) ∧
      g.1 = QDF_STATUS_SUCCESS ∧ m = l.1 ∧
      (∃ cfg B1 B2, cds_cfg = some cfg ∧
        (c.cfg_init p B1 l.2).status = QDF_STATUS_SUCCESS ∧
        (mac_open b c psoc pHalHandle hdd_handle cds_cfg w).world.ext =
          (c.pe_open p cfg B2
            (c.sys_init_globals p (c.cfg_init p B1 l.2).ctx
              (c.cfg_init p B1 l.2).ext).ext).ext) ∧
      ps = (close_view c p (mac_open b c psoc pHalHandle hdd_handle cds_cfg w).world).psoc ∧
      rel =
        (if (close_view c p
            (mac_open b c psoc pHalHandle hdd_handle cds_cfg w).world).pdev ≠ 0 then
          [Call.wlan_objmgr_pdev_release_ref
            (close_view c p (mac_open b c psoc pHalHandle hdd_handle cds_cfg w).world).pdev]
          else []) ∧
      (mac_close b c p (mac_open b c psoc pHalHandle hdd_handle cds_cfg w).world).2.ext =
        (if b.WLAN_ALLOCATE_GLOBAL_BUFFERS_DYNAMICALLY then
          c.qdf_mem_free p
            (c.wlan_objmgr_psoc_release_ref ps
              (if (close_view c p
                  (mac_open b c psoc pHalHandle hdd_handle cds_cfg w).world).pdev ≠ 0 then
                c.wlan_objmgr_pdev_release_ref
                  (close_view c p
                    (mac_open b c psoc pHalHandle hdd_handle cds_cfg w).world).pdev
                  (close_ext c p (mac_open b c psoc pHalHandle hdd_handle cds_cfg w).world)
                else
                  close_ext c p (mac_open b c psoc pHalHandle hdd_handle cds_cfg w).world))
          else
            c.wlan_objmgr_psoc_release_ref ps
              (if (close_view c p
                  (mac_open b c psoc pHalHandle hdd_handle cds_cfg w).world).pdev ≠ 0 then
                c.wlan_objmgr_pdev_release_ref
                  (close_view c p
                    (mac_open b c psoc pHalHandle hdd_handle cds_cfg w).world).pdev
                  (close_ext c p (mac_open b c psoc pHalHandle hdd_handle cds_cfg w).world)
                else
                  close_ext c p
                    (mac_open b c psoc pHalHandle hdd_handle cds_cfg w).world)) := by
  rcases mac_open_cases b c psoc pHalHandle hdd_handle cds_cfg w with
    ⟨_, hr, _, _⟩ | ⟨_, _, hr, _, _⟩ | ⟨_, _, _, _, _, _, hr, _, _⟩ |
    ⟨_, _, _, _, hr, _, _⟩ | ⟨_, _, _, _, _, _, _, hr, _, _⟩ |
    ⟨_, _, _, _, _, _, _, _, hr, _, _⟩ | ⟨_, _, _, s, _, _, _, hs2, hr, _, _⟩ |
    ⟨hal0, p, m, hn, hp, hm, _, hh, hca, hfr, hc⟩
  · rw [hr] at hs; cases hs
  · rw [hr] at hs; cases hs
  · rw [hr] at hs; cases hs
  · rw [hr] at hs; cases hs
  · rw [hr] at hs; cases hs
  · rw [hr] at hs; cases hs
  · rw [hr] at hs; cases hs; exact absurd rfl hs2
  · subst hn
    rcases mac_open_effects b c psoc hal0 hdd_handle cds_cfg w a ha g hg l hl _ rfl with
      ⟨-, hr, -, -⟩ | ⟨-, -, hr, -, -, -, -⟩ | ⟨-, -, -, hr, -, -, -, -⟩ |
      ⟨-, -, -, -, hr, -⟩ | ⟨_, _, -, -, -, -, -, -, hr, -, -, -⟩ |
      ⟨_, _, _, -, -, -, -, -, -, ho, hr, -, -, -⟩ |
      ⟨cfg, B1, B2, -, hg1, -, hcf, -, hi, -, hh2, hc2, he2, -⟩
    · rw [hr] at hs; cases hs
    · rw [hr] at hs; cases hs
    · rw [hr] at hs; cases hs
    · rw [hr] at hs; cases hs
    · rw [hr] at hs; cases hs
    · rw [hr] at hs
      exact absurd (Ret.status.inj hs) ho
    · have hpa : p = a.1 := by
        rw [hh] at hh2
        exact Option.some.inj hh2
      have hml : m = l.1 := by
        have h := hc.symm.trans hc2
        simp at h
        exact h.2.1
      obtain ⟨k1, k2, k3, k4, k5, k6, k7⟩ :=
        mac_close_run b c p (mac_open b c psoc (some hal0) hdd_handle cds_cfg w).world hp
          hca.symm
      obtain ⟨-, j2, -⟩ :=
        mac_close_effects b c p (mac_open b c psoc (some hal0) hdd_handle cds_cfg w).world hp
          hca.symm
      refine ⟨p, m, _, _, hp, hh, k1, ?_, ?_, ?_, k3, k4, k5, k6, hpa, ?_, hg1, hml,
        ⟨cfg, B1, B2, hcf, ?_, ?_⟩, rfl, rfl, j2⟩
      · by_cases hpd :
            (close_view c p
              (mac_open b c psoc (some hal0) hdd_handle cds_cfg w).world).pdev = 0
        · left; simp [hpd]
        · right; exact ⟨_, hpd, by simp [hpd]⟩
      · intro ho hcl
        rw [k7 hcl]
        exact (hfr ho).2.1
      · rw [k2, hc]
        simp
      · intro hd
        rw [hpa, ha]
        simp [mac_allocate_context_buffer, hd]
      · rw [hpa]; exact hi
      · rw [hpa]; exact he2

/-- Witness for C7: dynamic strategy with the ledger, the allocator returns
block `64`.  After `mac_open` one reference, one block and one
configuration store are outstanding; after `mac_close` on the published
handle nothing is, and the pointer variable is null. -/
theorem mac_open_close_balance_witness :
    (mac_open dynamic_build
        (ledger_collaborators 64 QDF_STATUS_SUCCESS 5 QDF_STATUS_SUCCESS QDF_STATUS_SUCCESS
          QDF_STATUS_SUCCESS)
        7 (some 0) 9 (some { driver_type := 0 }) ledger_boot_world).hal = some 64 ∧
    (mac_open dynamic_build
        (ledger_collaborators 64 QDF_STATUS_SUCCESS 5 QDF_STATUS_SUCCESS QDF_STATUS_SUCCESS
          QDF_STATUS_SUCCESS)
        7 (some 0) 9 (some { driver_type := 0 }) ledger_boot_world).world.ext =
      { psoc_refs := 1, blocks := 1, cfg_stores := 1 } ∧
    (mac_close dynamic_build
        (ledger_collaborators 64 QDF_STATUS_SUCCESS 5 QDF_STATUS_SUCCESS QDF_STATUS_SUCCESS
          QDF_STATUS_SUCCESS) 64
        (mac_open dynamic_build
          (ledger_collaborators 64 QDF_STATUS_SUCCESS 5 QDF_STATUS_SUCCESS QDF_STATUS_SUCCESS
            QDF_STATUS_SUCCESS)
          7 (some 0) 9 (some { driver_type := 0 }) ledger_boot_world).world).2.ext =
      { psoc_refs := 0, blocks := 0, cfg_stores := 0 } ∧
    (mac_close dynamic_build
        (ledger_collaborators 64 QDF_STATUS_SUCCESS 5 QDF_STATUS_SUCCESS QDF_STATUS_SUCCESS
          QDF_STATUS_SUCCESS) 64
        (mac_open dynamic_build
          (ledger_collaborators 64 QDF_STATUS_SUCCESS 5 QDF_STATUS_SUCCESS QDF_STATUS_SUCCESS
            QDF_STATUS_SUCCESS)
          7 (some 0) 9 (some { driver_type := 0 })
          ledger_boot_world).world).2.global_mac_context_ptr = 0 := by
  obtain ⟨p, m, rel, ps, -, hh, -, -, -, -, -, -, -, hptr, hpa, -, -, -,
      ⟨cfg, B1, B2, -, -, hoe⟩, hps, -, hext⟩ :=
    mac_open_close_balance dynamic_build
      (ledger_collaborators 64 QDF_STATUS_SUCCESS 5 QDF_STATUS_SUCCESS QDF_STATUS_SUCCESS
        QDF_STATUS_SUCCESS)
      7 (some 0) 9 (some { driver_type := 0 }) ledger_boot_world _ rfl _ rfl _ rfl
      (by decide)
  have hp64 : p = 64 := hpa.trans rfl
  subst hp64
  refine ⟨hh, ?_, ?_, hptr rfl⟩
  · rw [hoe]; rfl
  · rw [hext, hps]; rfl

/-- C8: when `mac_open` returns success for a non-null psoc, and the
collaborators it hands the context to leave the bindings alone, the handle
it publishes is the (non-null) pointer the allocation returned and the
address of the context block; in the block `psoc` is the psoc passed in and
is non-null, `mlme_cfg` is non-null and is the address of the `cfg` member of
the MLME object looked up from that psoc, and `hdd_handle` is the
`hdd_handle` argument. -/
theorem mac_open_postcondition {E : Type} (b : Build) (c : Collaborators E) (psoc : Nat)
    (pHalHandle : Option Nat) (hdd_handle : Nat) (cds_cfg : Option cds_config_info)
    (w : World E) (t : List Call)
    (ht : t = calls_since w (mac_open b c psoc pHalHandle hdd_handle cds_cfg w).world)
    (hpsoc : psoc ≠ 0) (hf : open_frame c)
    (hs : (mac_open b c psoc pHalHandle hdd_handle cds_cfg w).ret
      = Ret.status QDF_STATUS_SUCCESS) :
    ∃ p m, p ≠ 0 ∧ m ≠ 0 ∧
      Call.mac_allocate_context_buffer p ∈ t ∧
      Call.mlme_get_psoc_obj psoc m ∈ t ∧
      (mac_open b c psoc pHalHandle hdd_handle cds_cfg w).hal = some p ∧
      context_addr b (mac_open b c psoc pHalHandle hdd_handle cds_cfg w).world = p ∧
      (mac_open b c psoc pHalHandle hdd_handle cds_cfg w).world.global_mac_context.psoc
        = psoc ∧
      (mac_open b c psoc pHalHandle hdd_handle cds_cfg w).world.global_mac_context.psoc
        ≠ 0 ∧
      (mac_open b c psoc pHalHandle hdd_handle cds_cfg w).world.global_mac_context.mlme_cfg
        = m + b.offsetof_cfg ∧
      (mac_open b c psoc pHalHandle hdd_handle cds_cfg w).world.global_mac_context.mlme_cfg
        ≠ 0 ∧
      (mac_open b c psoc pHalHandle hdd_handle cds_cfg w).world.global_mac_context.hdd_handle
        = hdd_handle := by
  rcases mac_open_cases b c psoc pHalHandle hdd_handle cds_cfg w with
    ⟨_, hr, _, _⟩ | ⟨_, _, hr, _, _⟩ | ⟨_, _, _, _, _, _, hr, _, _⟩ |
    ⟨_, _, _, _, hr, _, _⟩ | ⟨_, _, _, _, _, _, _, hr, _, _⟩ |
    ⟨_, _, _, _, _, _, _, _, hr, _, _⟩ | ⟨_, _, _, s, _, _, _, hs2, hr, _, _⟩ |
    ⟨_, p, m, _, hp, hm, _, hh, ha, hfr, hc⟩
  · rw [hr] at hs; cases hs
  · rw [hr] at hs; cases hs
  · rw [hr] at hs; cases hs
  · rw [hr] at hs; cases hs
  · rw [hr] at hs; cases hs
  · rw [hr] at hs; cases hs
  · rw [hr] at hs; cases hs; exact absurd rfl hs2
  · have h0 := calls_since_append w _ _ hc
    rw [← ht] at h0
    obtain ⟨g1, g2, g3⟩ := hfr hf
    refine ⟨p, m, hp, hm, by simp [h0], by simp [h0], hh, ha, g2, by rw [g2]; exact hpsoc,
      g3, by rw [g3]; omega, g1⟩

/-- Witness for C8: static strategy, psoc `7`, MLME object at `5`. -/
theorem mac_open_postcondition_witness :
    ∃ p m, p ≠ 0 ∧ m ≠ 0 ∧
      (mac_open static_build
        (scripted 0 QDF_STATUS_SUCCESS 5 QDF_STATUS_SUCCESS QDF_STATUS_SUCCESS
          QDF_STATUS_SUCCESS)
        7 (some 0) 9 (some { driver_type := 0 }) boot_world).hal = some p ∧
      (mac_open static_build
        (scripted 0 QDF_STATUS_SUCCESS 5 QDF_STATUS_SUCCESS QDF_STATUS_SUCCESS
          QDF_STATUS_SUCCESS)
        7 (some 0) 9 (some { driver_type := 0 }) boot_world).world.global_mac_context.psoc
        = 7 ∧
      (mac_open static_build
        (scripted 0 QDF_STATUS_SUCCESS 5 QDF_STATUS_SUCCESS QDF_STATUS_SUCCESS
          QDF_STATUS_SUCCESS)
        7 (some 0) 9 (some { driver_type := 0 }) boot_world).world.global_mac_context.mlme_cfg
        = m + static_build.offsetof_cfg := by
  have hf : open_frame
      (scripted 0 QDF_STATUS_SUCCESS 5 QDF_STATUS_SUCCESS QDF_STATUS_SUCCESS
        QDF_STATUS_SUCCESS) :=
    ⟨fun _ _ _ => ⟨rfl, rfl, rfl⟩, fun _ _ _ => ⟨rfl, rfl, rfl⟩,
      fun _ _ _ _ => ⟨rfl, rfl, rfl⟩⟩
  obtain ⟨p, m, h1, h2, _, _, h5, _, h7, _, h9, _, _⟩ :=
    mac_open_postcondition static_build
      (scripted 0 QDF_STATUS_SUCCESS 5 QDF_STATUS_SUCCESS QDF_STATUS_SUCCESS
        QDF_STATUS_SUCCESS)
      7 (some 0) 9 (some { driver_type := 0 }) boot_world _ rfl (by decide) hf (by decide)
  exact ⟨p, m, h1, h2, h5, h7, h9⟩

/-! ## The bindings after a failed `mac_open` -/

/-- C9, the code at the failing input: static strategy, psoc `7`, the
reference is acquired and the MLME object is missing.  `mac_open` returns
`QDF_STATUS_E_FAILURE` after releasing the reference, and the `psoc` field of
the context it leaves behind still holds `7`. -/
theorem mac_open_rollback_keeps_psoc :
    (mac_open static_build
        (scripted 0 QDF_STATUS_SUCCESS 0 QDF_STATUS_SUCCESS QDF_STATUS_SUCCESS
          QDF_STATUS_SUCCESS)
        7 (some 0) 9 (some { driver_type := 0 }) boot_world).ret
      = Ret.status QDF_STATUS_E_FAILURE ∧
    (mac_open static_build
        (scripted 0 QDF_STATUS_SUCCESS 0 QDF_STATUS_SUCCESS QDF_STATUS_SUCCESS
          QDF_STATUS_SUCCESS)
        7 (some 0) 9 (some { driver_type := 0 }) boot_world).world.calls
      = [Call.mac_allocate_context_buffer STATIC_CONTEXT_ADDR,
          Call.wlan_objmgr_psoc_try_get_ref 7 QDF_STATUS_SUCCESS,
          Call.mlme_get_psoc_obj 7 0,
          Call.wlan_objmgr_psoc_release_ref 7,
          Call.mac_free_context_buffer] ∧
    (mac_open static_build
        (scripted 0 QDF_STATUS_SUCCESS 0 QDF_STATUS_SUCCESS QDF_STATUS_SUCCESS
          QDF_STATUS_SUCCESS)
        7 (some 0) 9 (some { driver_type := 0 }) boot_world).world.global_mac_context.psoc
      = 7 := by
  decide

/-- C10, the code at the failing input, with the configuration store as the
specification describes it: static strategy, the MLME object is at `5`,
`cfg_init` fails.  `mac_open` returns `QDF_STATUS_E_FAILURE`, the store is not
initialised, and the `mlme_cfg` field of the context it leaves behind is `5`,
not null.  (With a `cfg_init` that succeeds the field is non-null and the
store initialised after `mac_open`, and after `mac_stop` the field is null
and the store torn down.) -/
theorem mac_open_failed_cfg_init_keeps_view :
    (mac_open static_build (spec_collaborators false 5) 7 (some 0) 9
        (some { driver_type := 0 }) spec_boot_world).ret
      = Ret.status QDF_STATUS_E_FAILURE ∧
    (mac_open static_build (spec_collaborators false 5) 7 (some 0) 9
        (some { driver_type := 0 }) spec_boot_world).world.ext = false ∧
    (mac_open static_build (spec_collaborators false 5) 7 (some 0) 9
        (some { driver_type := 0 }) spec_boot_world).world.global_mac_context.mlme_cfg
      = 5 ∧
    (mac_open static_build (spec_collaborators true 5) 7 (some 0) 9
        (some { driver_type := 0 }) spec_boot_world).world.ext = true ∧
    (mac_open static_build (spec_collaborators true 5) 7 (some 0) 9
        (some { driver_type := 0 }) spec_boot_world).world.global_mac_context.mlme_cfg
      = 5 ∧
    (mac_stop (spec_collaborators true 5) STATIC_CONTEXT_ADDR
        (mac_open static_build (spec_collaborators true 5) 7 (some 0) 9
          (some { driver_type := 0 }) spec_boot_world).world).2.ext = false ∧
    (mac_stop (spec_collaborators true 5) STATIC_CONTEXT_ADDR
        (mac_open static_build (spec_collaborators true 5) 7 (some 0) 9
          (some { driver_type := 0 }) spec_boot_world).world).2.global_mac_context.mlme_cfg
      = 0 := by
  decide

/-! ## The fields `mac_open` seeds before `pe_open` -/

/-- C11: whatever the context block held before and whatever `cfg_init` and
`sys_init_globals` did to it, `pe_open` is only ever handed a block whose
`mgmtSeqNum` is `WLAN_HOST_SEQ_NUM_MIN - 1`, that is `2047`, the value right
below the host range starting at `2048`, whose `he_sgi_ltf_cfg_bit_mask` is
`DEF_HE_AUTO_SGI_LTF` and whose `is_usr_cfg_amsdu_enabled` is true: replacing
`pe_open` by any `f` that agrees with it on such blocks changes nothing in
the run.  When `mac_open` succeeds and `pe_open` leaves the three fields
alone, they hold these values in the block `mac_open` leaves. -/
theorem mac_open_seq_num_init {E : Type} (b : Build) (c : Collaborators E) (psoc : Nat)
    (pHalHandle : Option Nat) (hdd_handle : Nat) (cds_cfg : Option cds_config_info)
    (w : World E) (f : Nat → cds_config_info → tAniSirGlobal → E → Effect E)
    (hagree : ∀ p cfg m e, m.mgmtSeqNum = WLAN_HOST_SEQ_NUM_MIN - 1 →
      m.he_sgi_ltf_cfg_bit_mask = b.DEF_HE_AUTO_SGI_LTF →
      m.is_usr_cfg_amsdu_enabled = true → f p cfg m e = c.pe_open p cfg m e) :
    WLAN_HOST_SEQ_NUM_MIN - 1 = 2047 ∧ WLAN_HOST_SEQ_NUM_MIN - 1 + 1 = WLAN_HOST_SEQ_NUM_MIN ∧
    mac_open b { c with pe_open := f } psoc pHalHandle hdd_handle cds_cfg w =
      mac_open b c psoc pHalHandle hdd_handle cds_cfg w ∧
    ((mac_open b c psoc pHalHandle hdd_handle cds_cfg w).ret
        = Ret.status QDF_STATUS_SUCCESS →
      (∀ p cfg, keeps_seed (c.pe_open p cfg)) →
      (mac_open b c psoc pHalHandle hdd_handle cds_cfg w).world.global_mac_context.mgmtSeqNum
        = 2047 ∧
      (mac_open b c psoc pHalHandle hdd_handle cds_cfg
        w).world.global_mac_context.he_sgi_ltf_cfg_bit_mask = b.DEF_HE_AUTO_SGI_LTF ∧
      (mac_open b c psoc pHalHandle hdd_handle cds_cfg
        w).world.global_mac_context.is_usr_cfg_amsdu_enabled = true) := by
  refine ⟨rfl, rfl, ?_, ?_⟩
  · have key : ∀ p cfg (blk : tAniSirGlobal) e,
        f p cfg { blk with
            mgmtSeqNum := WLAN_HOST_SEQ_NUM_MIN - 1
            he_sgi_ltf_cfg_bit_mask := b.DEF_HE_AUTO_SGI_LTF
            is_usr_cfg_amsdu_enabled := true } e =
          c.pe_open p cfg { blk with
            mgmtSeqNum := WLAN_HOST_SEQ_NUM_MIN - 1
            he_sgi_ltf_cfg_bit_mask := b.DEF_HE_AUTO_SGI_LTF
            is_usr_cfg_amsdu_enabled := true } e :=
      fun p cfg blk e => hagree p cfg _ e rfl rfl rfl
    cases pHalHandle with
    | none => rfl
    | some hal0 =>
      cases cds_cfg with
      | none => rfl
      | some cfg =>
        simp only [mac_open, mac_allocate_context_buffer, mac_open_fail,
          mac_free_context_buffer, World.store, World.invoke, World.notify, World.log, key]
  · intro hs hk
    obtain ⟨cfg, p, B1, e2, _, _, hfin⟩ :=
      mac_open_success_run b c psoc pHalHandle hdd_handle cds_cfg w hs
    rw [hfin]
    obtain ⟨k1, k2, k3⟩ := hk p cfg
      { (c.sys_init_globals p (c.cfg_init p B1 e2).ctx (c.cfg_init p B1 e2).ext).ctx with
        mgmtSeqNum := WLAN_HOST_SEQ_NUM_MIN - 1
        he_sgi_ltf_cfg_bit_mask := b.DEF_HE_AUTO_SGI_LTF
        is_usr_cfg_amsdu_enabled := true }
      (c.sys_init_globals p (c.cfg_init p B1 e2).ctx (c.cfg_init p B1 e2).ext).ext
    exact ⟨k1, k2, k3⟩

/-- Witness for C11: an engine that fails unless it is handed sequence
counter `2047` and a set A-MSDU flag is indistinguishable from one that
always succeeds, so `mac_open` succeeds with it. -/
theorem mac_open_seq_num_init_witness :
    (mac_open static_build
        { scripted 0 QDF_STATUS_SUCCESS 5 QDF_STATUS_SUCCESS QDF_STATUS_SUCCESS
            QDF_STATUS_SUCCESS with pe_open := picky_pe_open }
        7 (some 0) 9 (some { driver_type := 0 }) boot_world).ret
      = Ret.status QDF_STATUS_SUCCESS := by
  rw [(mac_open_seq_num_init static_build
    (scripted 0 QDF_STATUS_SUCCESS 5 QDF_STATUS_SUCCESS QDF_STATUS_SUCCESS QDF_STATUS_SUCCESS)
    7 (some 0) 9 (some { driver_type := 0 }) boot_world picky_pe_open
    (by
      intro p cfg m e h1 _ h3
      simp only [WLAN_HOST_SEQ_NUM_MIN] at h1
      simp [picky_pe_open, scripted, h1, h3])).2.2.1]
  decide

/-! ## Argument validation -/

/-- C12, as stated, fails: with a null psoc (and a reference acquisition that
refuses it), `mac_open` has already taken the context block, written
`hdd_handle` into it and called `wlan_objmgr_psoc_try_get_ref` before it
returns `QDF_STATUS_E_FAILURE`. -/
theorem mac_open_null_psoc_allocates :
    (mac_open static_build
        (scripted 0 QDF_STATUS_E_FAILURE 5 QDF_STATUS_SUCCESS QDF_STATUS_SUCCESS
          QDF_STATUS_SUCCESS)
        0 (some 0) 9 (some { driver_type := 0 }) boot_world).ret
      = Ret.status QDF_STATUS_E_FAILURE ∧
    (mac_open static_build
        (scripted 0 QDF_STATUS_E_FAILURE 5 QDF_STATUS_SUCCESS QDF_STATUS_SUCCESS
          QDF_STATUS_SUCCESS)
        0 (some 0) 9 (some { driver_type := 0 }) boot_world).world.calls
      = [Call.mac_allocate_context_buffer STATIC_CONTEXT_ADDR,
          Call.wlan_objmgr_psoc_try_get_ref 0 QDF_STATUS_E_FAILURE,
          Call.mac_free_context_buffer] ∧
    boot_world.global_mac_context.hdd_handle = 0 ∧
    (mac_open static_build
        (scripted 0 QDF_STATUS_E_FAILURE 5 QDF_STATUS_SUCCESS QDF_STATUS_SUCCESS
          QDF_STATUS_SUCCESS)
        0 (some 0) 9 (some { driver_type := 0 }) boot_world).world.global_mac_context.hdd_handle
      = 9 := by
  decide

/-- C12, amended: `mac_open` validates `pHalHandle` only.  With a null
`pHalHandle` it returns `QDF_STATUS_E_FAILURE` and leaves the whole state as
it was (no allocation, no call, no write).  With a non-null `pHalHandle`,
whatever `psoc` and `cds_cfg` are (null included), its first call is the
allocation (`a`); when that returns a block, `hdd_handle` is written into it
and the second call is `wlan_objmgr_psoc_try_get_ref` on the `psoc` it was
given (`g`), whose status decides: on an error status the block, with
`hdd_handle` written, is freed and `QDF_STATUS_E_FAILURE` returned; on
success `psoc` is stored as well and the third call is `mlme_get_psoc_obj`
on that `psoc` (`l`), and any block later handed to `cfg_init` carries both
stores. -/
theorem mac_open_validates_out_pointer_only {E : Type} (b : Build) (c : Collaborators E)
    (psoc : Nat) (hdd_handle : Nat) (cds_cfg : Option cds_config_info) (w : World E)
    (a : Nat × World E) (ha : a = mac_allocate_context_buffer b c w)
    (g : QDF_STATUS × E) (hg : g = c.wlan_objmgr_psoc_try_get_ref psoc a.2.ext)
    (l : Nat × E) (hl : l = c.mlme_get_psoc_obj psoc g.2) :
    (mac_open b c psoc none hdd_handle cds_cfg w).ret = Ret.status QDF_STATUS_E_FAILURE ∧
    (mac_open b c psoc none hdd_handle cds_cfg w).hal = none ∧
    (mac_open b c psoc none hdd_handle cds_cfg w).world = w ∧
    (∀ hal0, ∃ p rest,
      calls_since w (mac_open b c psoc (some hal0) hdd_handle cds_cfg w).world =
        Call.mac_allocate_context_buffer p :: rest ∧
      (p = 0 ∨ ∃ s rest2, rest = Call.wlan_objmgr_psoc_try_get_ref psoc s :: rest2)) ∧
    (∀ hal0,
      (a.1 = 0 →
        (mac_open b c psoc (some hal0) hdd_handle cds_cfg w).ret
          = Ret.status QDF_STATUS_E_NOMEM ∧
        (mac_open b c psoc (some hal0) hdd_handle cds_cfg w).world = a.2) ∧
      (a.1 ≠ 0 → g.1 ≠ QDF_STATUS_SUCCESS →
        (mac_open b c psoc (some hal0) hdd_handle cds_cfg w).ret
          = Ret.status QDF_STATUS_E_FAILURE ∧
        calls_since w (mac_open b c psoc (some hal0) hdd_handle cds_cfg w).world =
          [Call.mac_allocate_context_buffer a.1,
            Call.wlan_objmgr_psoc_try_get_ref psoc g.1,
            Call.mac_free_context_buffer] ∧
        (mac_open b c psoc (some hal0) hdd_handle cds_cfg w).world.global_mac_context =
          { a.2.global_mac_context with hdd_handle := hdd_handle } ∧
        (mac_open b c psoc (some hal0) hdd_handle cds_cfg w).world.ext =
          (if b.WLAN_ALLOCATE_GLOBAL_BUFFERS_DYNAMICALLY then c.qdf_mem_free a.1 g.2
            else g.2)) ∧
      (a.1 ≠ 0 → g.1 = QDF_STATUS_SUCCESS →
        ∃ rest,
          calls_since w (mac_open b c psoc (some hal0) hdd_handle cds_cfg w).world =
            Call.mac_allocate_context_buffer a.1 ::
              Call.wlan_objmgr_psoc_try_get_ref psoc QDF_STATUS_SUCCESS ::
              Call.mlme_get_psoc_obj psoc l.1 :: rest) ∧
      (a.1 ≠ 0 → g.1 = QDF_STATUS_SUCCESS → l.1 = 0 →
        (mac_open b c psoc (some hal0) hdd_handle cds_cfg w).ret
          = Ret.status QDF_STATUS_E_FAILURE ∧
        (mac_open b c psoc (some hal0) hdd_handle cds_cfg w).world.global_mac_context =
          { a.2.global_mac_context with hdd_handle := hdd_handle, psoc := psoc }) ∧
      (∀ q s, Call.cfg_init q s ∈
          calls_since w (mac_open b c psoc (some hal0) hdd_handle cds_cfg w).world →
        ∃ B1 : tAniSirGlobal, B1.hdd_handle = hdd_handle ∧ B1.psoc = psoc ∧
          q = a.1 ∧ s = (c.cfg_init q B1 l.2).status)) := by
  refine ⟨rfl, rfl, rfl, ?_, ?_⟩
  · intro hal0
    rcases mac_open_cases b c psoc (some hal0) hdd_handle cds_cfg w with
      ⟨hn, _, _, _⟩ | ⟨_, _, _, _, hc⟩ | ⟨_, p, s, _, hp, hs, _, _, hc⟩ |
      ⟨_, p, _, hp, _, _, hc⟩ | ⟨_, p, m, _, hp, hm, _, _, _, hc⟩ |
      ⟨_, p, m, s, _, hp, hm, hs, _, _, hc⟩ | ⟨_, p, m, s, _, hp, hm, hs, _, _, hc⟩ |
      ⟨_, p, m, _, hp, hm, _, _, _, _, hc⟩
    · cases hn
    all_goals
      rw [calls_since_append w _ _ hc]
      first
        | exact ⟨_, _, rfl, Or.inl rfl⟩
        | exact ⟨_, _, rfl, Or.inr ⟨_, _, rfl⟩⟩
  · intro hal0
    rcases mac_open_effects b c psoc hal0 hdd_handle cds_cfg w a ha g hg l hl _ rfl with
      ⟨h0, hr, hw, hc⟩ | ⟨hp, hs, hr, hc, hb, he, -⟩ | ⟨hp, hs, hm, hr, hc, hb, -, -⟩ |
      ⟨hp, hs, hm, -, -, hc⟩ | ⟨cfg, B1, hp, hs, hm, -, hB, hi, -, hc, -, -⟩ |
      ⟨cfg, B1, B2, hp, hs, hm, -, hB, hi, ho, -, hc, -, -⟩ |
      ⟨cfg, B1, B2, hp, hs, hm, -, hB, hi, -, -, hc, -, -⟩
    all_goals
      rw [calls_since_append w _ _ hc]
    · refine ⟨fun _ => ⟨hr, hw⟩, fun h => absurd h0 h, fun h => absurd h0 h,
        fun h => absurd h0 h, ?_⟩
      simp
    · refine ⟨fun h => absurd h hp, fun _ _ => ⟨hr, rfl, hb, he⟩, fun _ h => absurd h hs,
        fun _ h => absurd h hs, ?_⟩
      simp
    · refine ⟨fun h => absurd h hp, fun _ h => absurd hs h, fun _ _ => ⟨_, by rw [hm]⟩,
        fun _ _ _ => ⟨hr, hb⟩, ?_⟩
      simp
    · refine ⟨fun h => absurd h hp, fun _ h => absurd hs h, fun _ _ => ⟨_, rfl⟩,
        fun _ _ h => absurd h hm, ?_⟩
      simp
    · refine ⟨fun h => absurd h hp, fun _ h => absurd hs h, fun _ _ => ⟨_, rfl⟩,
        fun _ _ h => absurd h hm, ?_⟩
      intro q s h
      simp at h
      obtain ⟨rfl, rfl⟩ := h
      exact ⟨B1, hB.1, hB.2.1, rfl, rfl⟩
    · refine ⟨fun h => absurd h hp, fun _ h => absurd hs h, fun _ _ => ⟨_, rfl⟩,
        fun _ _ h => absurd h hm, ?_⟩
      intro q s h
      simp at h
      obtain ⟨rfl, rfl⟩ := h
      exact ⟨B1, hB.1, hB.2.1, rfl, hi.symm⟩
    · refine ⟨fun h => absurd h hp, fun _ h => absurd hs h, fun _ _ => ⟨_, rfl⟩,
        fun _ _ h => absurd h hm, ?_⟩
      intro q s h
      simp at h
      obtain ⟨rfl, rfl⟩ := h
      exact ⟨B1, hB.1, hB.2.1, rfl, hi.symm⟩

/-- Witness for C12: dynamic strategy with the ledger, a null psoc and an
acquisition that refuses it.  The block was allocated, `hdd_handle` `9` was
written into it, the acquisition was called, and the block was freed again
before `QDF_STATUS_E_FAILURE` was returned. -/
theorem mac_open_validates_out_pointer_only_witness :
    (mac_open dynamic_build
        (ledger_collaborators 64 QDF_STATUS_E_FAILURE 5 QDF_STATUS_SUCCESS QDF_STATUS_SUCCESS
          QDF_STATUS_SUCCESS)
        0 (some 0) 9 (some { driver_type := 0 }) ledger_boot_world).ret
      = Ret.status QDF_STATUS_E_FAILURE ∧
    calls_since ledger_boot_world
        (mac_open dynamic_build
          (ledger_collaborators 64 QDF_STATUS_E_FAILURE 5 QDF_STATUS_SUCCESS
            QDF_STATUS_SUCCESS QDF_STATUS_SUCCESS)
          0 (some 0) 9 (some { driver_type := 0 }) ledger_boot_world).world =
      [Call.mac_allocate_context_buffer 64,
        Call.wlan_objmgr_psoc_try_get_ref 0 QDF_STATUS_E_FAILURE,
        Call.mac_free_context_buffer] ∧
    (mac_open dynamic_build
        (ledger_collaborators 64 QDF_STATUS_E_FAILURE 5 QDF_STATUS_SUCCESS QDF_STATUS_SUCCESS
          QDF_STATUS_SUCCESS)
        0 (some 0) 9 (some { driver_type := 0 }) ledger_boot_world).world.global_mac_context
      = { zero_context with hdd_handle := 9 } ∧
    (mac_open dynamic_build
        (ledger_collaborators 64 QDF_STATUS_E_FAILURE 5 QDF_STATUS_SUCCESS QDF_STATUS_SUCCESS
          QDF_STATUS_SUCCESS)
        0 (some 0) 9 (some { driver_type := 0 }) ledger_boot_world).world.ext
      = { psoc_refs := 0, blocks := 0, cfg_stores := 0 } :=
  ((mac_open_validates_out_pointer_only dynamic_build
    (ledger_collaborators 64 QDF_STATUS_E_FAILURE 5 QDF_STATUS_SUCCESS QDF_STATUS_SUCCESS
      QDF_STATUS_SUCCESS)
    0 9 (some { driver_type := 0 }) ledger_boot_world _ rfl _ rfl _ rfl).2.2.2.2 0).2.1
    (by decide) (by decide)

/-- C13: `mac_start` with a null context handle, `mac_start` with null
params (whatever the handle) and `mac_close` with a null handle each return
`QDF_STATUS_E_FAILURE` and leave the whole state, context block and record of
calls included, exactly as it was. -/
theorem null_handles_rejected {E : Type} (b : Build) (c : Collaborators E)
    (mac_handle : Nat) (params : Option mac_start_params) (w : World E) :
    mac_start b c 0 params w = (Ret.status QDF_STATUS_E_FAILURE, w) ∧
    mac_start b c mac_handle none w = (Ret.status QDF_STATUS_E_FAILURE, w) ∧
    mac_close b c 0 w = (Ret.status QDF_STATUS_E_FAILURE, w) := by
  refine ⟨by simp [mac_start], ?_, by simp [mac_close]⟩
  by_cases h : mac_handle = 0 <;> simp [mac_start, h]

/-! ## The status `mac_open` returns on failure -/

/-- C14, as stated, fails: a failed reference acquisition, a missing MLME
object and a failed `cfg_init` all make `mac_open` return the same
`QDF_STATUS_E_FAILURE`; a `pe_open` failing with status code `4` makes it
return that very status, untranslated; and a `pe_open` failing with
`QDF_STATUS_E_NOMEM` makes it return `QDF_STATUS_E_NOMEM`, as a failed
allocation does. -/
theorem mac_open_status_does_not_identify_step :
    (mac_open static_build
        (scripted 0 (QDF_STATUS_E_OTHER 4) 5 QDF_STATUS_SUCCESS QDF_STATUS_SUCCESS
          QDF_STATUS_SUCCESS)
        7 (some 0) 9 (some { driver_type := 0 }) boot_world).ret
      = Ret.status QDF_STATUS_E_FAILURE ∧
    (mac_open static_build
        (scripted 0 QDF_STATUS_SUCCESS 0 QDF_STATUS_SUCCESS QDF_STATUS_SUCCESS
          QDF_STATUS_SUCCESS)
        7 (some 0) 9 (some { driver_type := 0 }) boot_world).ret
      = Ret.status QDF_STATUS_E_FAILURE ∧
    (mac_open static_build
        (scripted 0 QDF_STATUS_SUCCESS 5 (QDF_STATUS_E_OTHER 4) QDF_STATUS_SUCCESS
          QDF_STATUS_SUCCESS)
        7 (some 0) 9 (some { driver_type := 0 }) boot_world).ret
      = Ret.status QDF_STATUS_E_FAILURE ∧
    (mac_open static_build
        (scripted 0 QDF_STATUS_SUCCESS 5 QDF_STATUS_SUCCESS (QDF_STATUS_E_OTHER 4)
          QDF_STATUS_SUCCESS)
        7 (some 0) 9 (some { driver_type := 0 }) boot_world).ret
      = Ret.status (QDF_STATUS_E_OTHER 4) ∧
    (mac_open dynamic_build
        (scripted 64 QDF_STATUS_SUCCESS 5 QDF_STATUS_SUCCESS QDF_STATUS_E_NOMEM
          QDF_STATUS_SUCCESS)
        7 (some 0) 9 (some { driver_type := 0 }) boot_world).ret
      = Ret.status QDF_STATUS_E_NOMEM ∧
    (mac_open dynamic_build
        (scripted 0 QDF_STATUS_SUCCESS 5 QDF_STATUS_SUCCESS QDF_STATUS_SUCCESS
          QDF_STATUS_SUCCESS)
        7 (some 0) 9 (some { driver_type := 0 }) boot_world).ret
      = Ret.status QDF_STATUS_E_NOMEM := by
  decide

/-- C14, amended: a failed allocation makes `mac_open` return
`QDF_STATUS_E_NOMEM`; a failed reference acquisition, a missing MLME object
and a failed `cfg_init` each make it return `QDF_STATUS_E_FAILURE`, whatever
status the collaborator reported; a failed `pe_open` makes it return the
status `pe_open` reported, unchanged. -/
theorem mac_open_failure_status {E : Type} (b : Build) (c : Collaborators E) (psoc : Nat)
    (pHalHandle : Option Nat) (hdd_handle : Nat) (cds_cfg : Option cds_config_info)
    (w : World E) (t : List Call)
    (ht : t = calls_since w (mac_open b c psoc pHalHandle hdd_handle cds_cfg w).world) :
    (Call.mac_allocate_context_buffer 0 ∈ t →
      (mac_open b c psoc pHalHandle hdd_handle cds_cfg w).ret
        = Ret.status QDF_STATUS_E_NOMEM) ∧
    (∀ s, s ≠ QDF_STATUS_SUCCESS → Call.wlan_objmgr_psoc_try_get_ref psoc s ∈ t →
      (mac_open b c psoc pHalHandle hdd_handle cds_cfg w).ret
        = Ret.status QDF_STATUS_E_FAILURE) ∧
    (Call.mlme_get_psoc_obj psoc 0 ∈ t →
      (mac_open b c psoc pHalHandle hdd_handle cds_cfg w).ret
        = Ret.status QDF_STATUS_E_FAILURE) ∧
    (∀ q s, s ≠ QDF_STATUS_SUCCESS → Call.cfg_init q s ∈ t →
      (mac_open b c psoc pHalHandle hdd_handle cds_cfg w).ret
        = Ret.status QDF_STATUS_E_FAILURE) ∧
    (∀ q s, s ≠ QDF_STATUS_SUCCESS → Call.pe_open q s ∈ t →
      (mac_open b c psoc pHalHandle hdd_handle cds_cfg w).ret = Ret.status s) := by
  rcases mac_open_cases b c psoc pHalHandle hdd_handle cds_cfg w with
    ⟨_, hr, _, hw⟩ | ⟨_, _, hr, _, hc⟩ | ⟨_, p, s, _, hp, hs, hr, _, hc⟩ |
    ⟨_, p, _, hp, hr, _, hc⟩ | ⟨_, p, m, _, hp, hm, _, hr, _, hc⟩ |
    ⟨_, p, m, s, _, hp, hm, hs, hr, _, hc⟩ | ⟨_, p, m, s, _, hp, hm, hs, hr, _, hc⟩ |
    ⟨_, p, m, _, hp, hm, hr, _, _, _, hc⟩
  · have h0 : t = [] := by rw [ht, hw]; simp [calls_since]
    subst h0
    simp
  all_goals
    have h0 := calls_since_append w _ _ hc
    rw [← ht] at h0
    clear ht hc
    subst h0
    rw [hr]
    first
      | (simp_all; done)
      | (simp_all; omega)

/-- Witness for C14: `pe_open` fails with status code `4`, and `mac_open`
returns status code `4`. -/
theorem mac_open_failure_status_witness :
    (mac_open static_build
        (scripted 0 QDF_STATUS_SUCCESS 5 QDF_STATUS_SUCCESS (QDF_STATUS_E_OTHER 4)
          QDF_STATUS_SUCCESS)
        7 (some 0) 9 (some { driver_type := 0 }) boot_world).ret
      = Ret.status (QDF_STATUS_E_OTHER 4) :=
  (mac_open_failure_status static_build
    (scripted 0 QDF_STATUS_SUCCESS 5 QDF_STATUS_SUCCESS (QDF_STATUS_E_OTHER 4)
      QDF_STATUS_SUCCESS)
    7 (some 0) 9 (some { driver_type := 0 }) boot_world _ rfl).2.2.2.2
    STATIC_CONTEXT_ADDR (QDF_STATUS_E_OTHER 4) (by decide) (by decide)

/-! ## The operating mode -/

/-- C15: for a valid (non-null) context handle and non-null params,
`mac_start` itself stores the requested driver type into `gDriverType` and
nothing else.  If the requested type is the manufacturing type the state
afterwards is the state before with that one field replaced.  Otherwise the
block and the collaborators' state afterwards are exactly what `pe_start`
returned when handed the block with that one field replaced, whatever status
it reported; so `gDriverType` is the requested type as long as `pe_start`
does not overwrite it, and the block differs from the one before in
`gDriverType` only as long as `pe_start` writes nothing. -/
theorem mac_start_frame {E : Type} (b : Build) (c : Collaborators E)
    (mac_handle : Nat) (params : mac_start_params) (w : World E)
    (hnz : mac_handle ≠ 0) (hv : mac_handle = context_addr b w) :
    (params.driver_type = b.QDF_DRIVER_TYPE_MFG →
      (mac_start b c mac_handle (some params) w).2 =
        { w with global_mac_context :=
            { w.global_mac_context with gDriverType := params.driver_type } }) ∧
    (params.driver_type ≠ b.QDF_DRIVER_TYPE_MFG →
      (mac_start b c mac_handle (some params) w).2.global_mac_context =
        (c.pe_start mac_handle
          { w.global_mac_context with gDriverType := params.driver_type } w.ext).ctx ∧
      (mac_start b c mac_handle (some params) w).2.ext =
        (c.pe_start mac_handle
          { w.global_mac_context with gDriverType := params.driver_type } w.ext).ext ∧
      (mac_start b c mac_handle (some params) w).2.global_mac_context_ptr =
        w.global_mac_context_ptr) ∧
    (keeps_mode (c.pe_start mac_handle) →
      (mac_start b c mac_handle (some params) w).2.global_mac_context.gDriverType =
        params.driver_type) ∧
    ((∀ m e, (c.pe_start mac_handle m e).ctx = m) →
      (mac_start b c mac_handle (some params) w).2.global_mac_context =
        { w.global_mac_context with gDriverType := params.driver_type }) := by
  by_cases hm : params.driver_type = b.QDF_DRIVER_TYPE_MFG
  · simp [mac_start, hnz, ← hv, World.store, hm]
  · refine ⟨fun h => absurd h hm, fun _ => ?_, fun hk => ?_, fun hk => ?_⟩
    · simp [mac_start, hnz, ← hv, World.store, hm, World.invoke]
    · simp only [mac_start, hnz, ← hv, World.store, hm, World.invoke, if_false, ne_eq,
        not_true_eq_false, not_false_eq_true, if_true]
      rw [hk]
    · simp only [mac_start, hnz, ← hv, World.store, hm, World.invoke, if_false, ne_eq,
        not_true_eq_false, not_false_eq_true, if_true]
      rw [hk]

/-- Witness for C15: the stored mode is `1`, the requested type is `0`,
`pe_start` fails with status code `4`; afterwards the block is the one
before with `gDriverType` `0`. -/
theorem mac_start_frame_witness :
    (mac_start static_build
        (scripted 0 QDF_STATUS_SUCCESS 5 QDF_STATUS_SUCCESS QDF_STATUS_SUCCESS
          (QDF_STATUS_E_OTHER 4))
        STATIC_CONTEXT_ADDR (some { driver_type := 0 })
        { boot_world with
          global_mac_context := { zero_context with psoc := 7, gDriverType := 1 }
        }).2.global_mac_context
      = { zero_context with psoc := 7, gDriverType := 0 } :=
  (mac_start_frame static_build
    (scripted 0 QDF_STATUS_SUCCESS 5 QDF_STATUS_SUCCESS QDF_STATUS_SUCCESS
      (QDF_STATUS_E_OTHER 4))
    STATIC_CONTEXT_ADDR { driver_type := 0 }
    { boot_world with
      global_mac_context := { zero_context with psoc := 7, gDriverType := 1 } }
    (by decide) (by decide)).2.2.2 (fun _ _ => rfl)

/-- C16, as stated, fails: under the static strategy, open with a non-zero
`driver_type`, close, and open again with `driver_type` zero.  All three
calls succeed, and after the second `mac_open` the operating mode is still
the manufacturing type, not zero. -/
theorem mac_open_reused_block_keeps_mode :
    (mac_open static_build
        (scripted 0 QDF_STATUS_SUCCESS 5 QDF_STATUS_SUCCESS QDF_STATUS_SUCCESS
          QDF_STATUS_SUCCESS)
        7 (some 0) 9 (some { driver_type := 1 }) boot_world).ret
      = Ret.status QDF_STATUS_SUCCESS ∧
    (mac_close static_build
        (scripted 0 QDF_STATUS_SUCCESS 5 QDF_STATUS_SUCCESS QDF_STATUS_SUCCESS
          QDF_STATUS_SUCCESS)
        STATIC_CONTEXT_ADDR
        (mac_open static_build
          (scripted 0 QDF_STATUS_SUCCESS 5 QDF_STATUS_SUCCESS QDF_STATUS_SUCCESS
            QDF_STATUS_SUCCESS)
          7 (some 0) 9 (some { driver_type := 1 }) boot_world).world).1
      = Ret.status QDF_STATUS_SUCCESS ∧
    (mac_open static_build
        (scripted 0 QDF_STATUS_SUCCESS 5 QDF_STATUS_SUCCESS QDF_STATUS_SUCCESS
          QDF_STATUS_SUCCESS)
        7 (some 0) 9 (some { driver_type := 0 })
        (mac_close static_build
          (scripted 0 QDF_STATUS_SUCCESS 5 QDF_STATUS_SUCCESS QDF_STATUS_SUCCESS
            QDF_STATUS_SUCCESS)
          STATIC_CONTEXT_ADDR
          (mac_open static_build
            (scripted 0 QDF_STATUS_SUCCESS 5 QDF_STATUS_SUCCESS QDF_STATUS_SUCCESS
              QDF_STATUS_SUCCESS)
            7 (some 0) 9 (some { driver_type := 1 }) boot_world).world).2).ret
      = Ret.status QDF_STATUS_SUCCESS ∧
    (mac_open static_build
        (scripted 0 QDF_STATUS_SUCCESS 5 QDF_STATUS_SUCCESS QDF_STATUS_SUCCESS
          QDF_STATUS_SUCCESS)
        7 (some 0) 9 (some { driver_type := 0 })
        (mac_close static_build
          (scripted 0 QDF_STATUS_SUCCESS 5 QDF_STATUS_SUCCESS QDF_STATUS_SUCCESS
            QDF_STATUS_SUCCESS)
          STATIC_CONTEXT_ADDR
          (mac_open static_build
            (scripted 0 QDF_STATUS_SUCCESS 5 QDF_STATUS_SUCCESS QDF_STATUS_SUCCESS
              QDF_STATUS_SUCCESS)
            7 (some 0) 9 (some { driver_type := 1 })
            boot_world).world).2).world.global_mac_context.gDriverType
      = static_build.QDF_DRIVER_TYPE_MFG ∧
    static_build.QDF_DRIVER_TYPE_MFG ≠ 0 := by
  decide

/-- C16, amended: when `mac_open` succeeds and the collaborators it hands
the context to leave the mode alone, the operating mode afterwards is the
manufacturing type if the options' `driver_type` is non-zero; if it is zero,
`mac_open` does not write the mode, and the mode is the one the block held
when it was allocated, which under the static strategy is whatever the
object held before the call. -/
theorem mac_open_mode {E : Type} (b : Build) (c : Collaborators E) (psoc : Nat)
    (pHalHandle : Option Nat) (hdd_handle : Nat) (cfg : cds_config_info) (w : World E)
    (hf : open_keeps_mode c)
    (hs : (mac_open b c psoc pHalHandle hdd_handle (some cfg) w).ret
      = Ret.status QDF_STATUS_SUCCESS) :
    (mac_open b c psoc pHalHandle hdd_handle (some cfg) w).world.global_mac_context.gDriverType
      = (if cfg.driver_type ≠ 0 then b.QDF_DRIVER_TYPE_MFG
          else (mac_allocate_context_buffer b c w).2.global_mac_context.gDriverType) ∧
    (b.WLAN_ALLOCATE_GLOBAL_BUFFERS_DYNAMICALLY = false →
      (mac_allocate_context_buffer b c w).2.global_mac_context = w.global_mac_context) := by
  constructor
  · obtain ⟨cfg1, p, B1, e2, hc, hB, hfin⟩ :=
      mac_open_success_run b c psoc pHalHandle hdd_handle (some cfg) w hs
    cases hc
    rw [hfin, hf.2.2 p cfg, ← hB]
    show (c.sys_init_globals p (c.cfg_init p B1 e2).ctx (c.cfg_init p B1 e2).ext).ctx.gDriverType
      = B1.gDriverType
    rw [hf.2.1 p, hf.1 p]
  · intro hb
    simp [mac_allocate_context_buffer, hb, World.log]

/-- Witness for C16: a static block whose mode is `1`, opened with
`driver_type` zero, still has mode `1`. -/
theorem mac_open_mode_witness :
    (mac_open static_build
        (scripted 0 QDF_STATUS_SUCCESS 5 QDF_STATUS_SUCCESS QDF_STATUS_SUCCESS
          QDF_STATUS_SUCCESS)
        7 (some 0) 9 (some { driver_type := 0 })
        { boot_world with global_mac_context := { zero_context with gDriverType := 1 }
        }).world.global_mac_context.gDriverType = 1 :=
  (mac_open_mode static_build
    (scripted 0 QDF_STATUS_SUCCESS 5 QDF_STATUS_SUCCESS QDF_STATUS_SUCCESS QDF_STATUS_SUCCESS)
    7 (some 0) 9 { driver_type := 0 }
    { boot_world with global_mac_context := { zero_context with gDriverType := 1 } }
    ⟨fun _ _ _ => rfl, fun _ _ _ => rfl, fun _ _ _ _ => rfl⟩ (by decide)).1

/-! ## The whole cycle -/

/-- A run of `mac_start` on a valid handle: at most one call, to `pe_start`,
and the context stays where it is. -/
theorem mac_start_run {E : Type} (b : Build) (c : Collaborators E) (mac_handle : Nat)
    (params : Option mac_start_params) (w : World E)
    (hnz : mac_handle ≠ 0) (hv : mac_handle = context_addr b w) :
    ∃ st, (st = [] ∨ ∃ s, st = [Call.pe_start mac_handle s]) ∧
      (mac_start b c mac_handle params w).2.calls = w.calls ++ st ∧
      context_addr b (mac_start b c mac_handle params w).2 = mac_handle := by
  cases params with
  | none => exact ⟨[], Or.inl rfl, by simp [mac_start, hnz], by simp [mac_start, hnz, ← hv]⟩
  | some p =>
    have e : (mac_start b c mac_handle (some p) w).2.global_mac_context_ptr =
        w.global_mac_context_ptr := by
      by_cases hm : p.driver_type = b.QDF_DRIVER_TYPE_MFG <;>
        simp [mac_start, hnz, ← hv, World.store, hm, World.invoke]
    have ea : context_addr b (mac_start b c mac_handle (some p) w).2 = mac_handle := by
      have e2 : context_addr b (mac_start b c mac_handle (some p) w).2 = context_addr b w := by
        simp only [context_addr, e]
      rw [e2, ← hv]
    by_cases hm : p.driver_type = b.QDF_DRIVER_TYPE_MFG
    · refine ⟨[], Or.inl rfl, ?_, ea⟩
      simp [mac_start, hnz, ← hv, World.store, hm]
    · refine ⟨[Call.pe_start mac_handle
          (c.pe_start mac_handle
            { w.global_mac_context with gDriverType := p.driver_type } w.ext).status],
        Or.inr ⟨_, rfl⟩, ?_, ea⟩
      simp [mac_start, hnz, ← hv, World.store, hm, World.invoke]

/-- A run of `mac_stop`: two calls, and the context stays where it is. -/
theorem mac_stop_run {E : Type} (b : Build) (c : Collaborators E) (mac_handle : Nat)
    (w : World E) :
    (mac_stop c mac_handle w).2.calls =
      w.calls ++ [Call.pe_stop mac_handle, Call.cfg_cleanup mac_handle] ∧
    context_addr b (mac_stop c mac_handle w).2 = context_addr b w := by
  simp [mac_stop, World.invoke, context_addr]

/-- What a run of `mac_start` on a valid handle leaves: with null params
nothing changes; with the manufacturing type only `gDriverType` changes;
otherwise the block and the collaborators' state are those `pe_start`
returned when handed the block with `gDriverType` replaced. -/
theorem mac_start_effects {E : Type} (b : Build) (c : Collaborators E) (mac_handle : Nat)
    (params : Option mac_start_params) (w : World E)
    (hnz : mac_handle ≠ 0) (hv : mac_handle = context_addr b w) :
    (params = none → (mac_start b c mac_handle params w).2 = w) ∧
    (∀ prm, params = some prm →
      (prm.driver_type = b.QDF_DRIVER_TYPE_MFG →
        (mac_start b c mac_handle params w).2 =
          { w with global_mac_context :=
              { w.global_mac_context with gDriverType := prm.driver_type } }) ∧
      (prm.driver_type ≠ b.QDF_DRIVER_TYPE_MFG →
        (mac_start b c mac_handle params w).2.global_mac_context =
          (c.pe_start mac_handle
            { w.global_mac_context with gDriverType := prm.driver_type } w.ext).ctx ∧
        (mac_start b c mac_handle params w).2.ext =
          (c.pe_start mac_handle
            { w.global_mac_context with gDriverType := prm.driver_type } w.ext).ext)) := by
  constructor
  · intro h
    subst h
    simp [mac_start, hnz]
  · intro prm h
    subst h
    by_cases hm : prm.driver_type = b.QDF_DRIVER_TYPE_MFG
    · refine ⟨fun _ => ?_, fun h => absurd hm h⟩
      simp [mac_start, hnz, ← hv, World.store, hm]
    · refine ⟨fun h => absurd h hm, fun _ => ?_⟩
      simp [mac_start, hnz, ← hv, World.store, hm, World.invoke]

/-- If `pe_start` leaves the bindings alone, so does `mac_start`. -/
theorem mac_start_keeps_psoc {E : Type} (b : Build) (c : Collaborators E) (mac_handle : Nat)
    (params : Option mac_start_params) (w : World E)
    (hf : ∀ p, keeps_bindings (c.pe_start p)) :
    (mac_start b c mac_handle params w).2.global_mac_context.psoc =
      w.global_mac_context.psoc := by
  by_cases h0 : mac_handle = 0
  · simp [mac_start, h0]
  · cases params with
    | none => simp [mac_start, h0]
    | some prm =>
      by_cases hv : mac_handle = context_addr b w
      · by_cases hm : prm.driver_type = b.QDF_DRIVER_TYPE_MFG
        · simp [mac_start, h0, ← hv, World.store, hm]
        · simp only [mac_start, h0, ← hv, World.store, hm, World.invoke, if_false, ne_eq,
            not_true_eq_false, not_false_eq_true, if_true]
          rw [(hf mac_handle _ _).2.1]
      · simp [mac_start, h0, hv]

/-- The pointer variable is not touched by `mac_start`. -/
theorem mac_start_ptr {E : Type} (b : Build) (c : Collaborators E) (mac_handle : Nat)
    (params : Option mac_start_params) (w : World E) :
    (mac_start b c mac_handle params w).2.global_mac_context_ptr =
      w.global_mac_context_ptr := by
  by_cases h0 : mac_handle = 0
  · simp [mac_start, h0]
  · cases params with
    | none => simp [mac_start, h0]
    | some prm =>
      by_cases hv : mac_handle = context_addr b w
      · by_cases hm : prm.driver_type = b.QDF_DRIVER_TYPE_MFG <;>
          simp [mac_start, h0, ← hv, World.store, hm, World.invoke]
      · simp [mac_start, h0, hv]

/-- C17: run `mac_open` (returning success), then `mac_start`, `mac_stop` and
`mac_close` on the published handle `p`.  `mac_close` returns success and
the calls made over the four functions are, in order: allocate, one psoc
acquisition, the MLME lookup, one `cfg_init`, `sys_init_globals`, `pe_open`,
at most one `pe_start` (`st`), `pe_stop`, `cfg_cleanup`, `pe_close`,
`cfg_de_init`, the pdev release if a pdev is held (`rel`), one psoc release
(of `ps`) and one free.  So the configuration store is initialised once and
torn down twice, by `cfg_cleanup` and then by `cfg_de_init`, with no
`cfg_init` in between.  Each of these calls is really carried out.  Write
`w2`, `w3`, `w4` for the states after `mac_start`, `mac_stop` and `mac_close`:
`w2` is what `mac_start` makes of the state after `mac_open` (nothing, the
mode alone, or what `pe_start` returned); `w3` is what `cfg_cleanup`
returned, run on what `pe_stop` returned on `w2`; in `w4` the collaborators'
state is that of `w3` passed through `pe_close` and `cfg_de_init`, the pdev
release if any, `wlan_objmgr_psoc_release_ref` of `ps` and, under the dynamic
strategy, `qdf_mem_free` of `p`, the bindings of the block are null and the
pointer variable of the dynamic strategy is null.  The psoc released is the
`psoc` field `mac_close` reads, which is the psoc acquired as long as the
collaborators that are handed the context leave that field alone. -/
theorem full_cycle_calls {E : Type} (b : Build) (c : Collaborators E) (psoc : Nat)
    (pHalHandle : Option Nat) (hdd_handle : Nat) (cds_cfg : Option cds_config_info)
    (params : Option mac_start_params) (w : World E)
    (hs : (mac_open b c psoc pHalHandle hdd_handle cds_cfg w).ret
      = Ret.status QDF_STATUS_SUCCESS) :
    ∃ p m st rel ps, p ≠ 0 ∧
      (mac_open b c psoc pHalHandle hdd_handle cds_cfg w).hal = some p ∧
      (st = [] ∨ ∃ s, st = [Call.pe_start p s]) ∧
      (rel = [] ∨ ∃ pd, pd ≠ 0 ∧ rel = [Call.wlan_objmgr_pdev_release_ref pd]) ∧
      (mac_close b c p
        (mac_stop c p
          (mac_start b c p params
            (mac_open b c psoc pHalHandle hdd_handle cds_cfg w).world).2).2).1
        = Ret.status QDF_STATUS_SUCCESS ∧
      (mac_close b c p
        (mac_stop c p
          (mac_start b c p params
            (mac_open b c psoc pHalHandle hdd_handle cds_cfg w).world).2).2).2.calls =
        w.calls ++ ([Call.mac_allocate_context_buffer p,
          Call.wlan_objmgr_psoc_try_get_ref psoc QDF_STATUS_SUCCESS,
          Call.mlme_get_psoc_obj psoc m,
          Call.cfg_init p QDF_STATUS_SUCCESS,
          Call.sys_init_globals p,
          Call.pe_open p QDF_STATUS_SUCCESS] ++ st ++
          [Call.pe_stop p, Call.cfg_cleanup p, Call.pe_close p, Call.cfg_de_init p] ++ rel ++
          [Call.wlan_objmgr_psoc_release_ref ps, Call.mac_free_context_buffer]) ∧
      p = (mac_allocate_context_buffer b c w).1 ∧
      (open_frame c → cycle_frame c → close_frame c → ps = psoc) ∧
      ∀ w1 w2 w3 w4 : World E,
        w1 = (mac_open b c psoc pHalHandle hdd_handle cds_cfg w).world →
        w2 = (mac_start b c p params w1).2 →
        w3 = (mac_stop c p w2).2 →
        w4 = (mac_close b c p w3).2 →
        ((params = none → w2 = w1) ∧
          (∀ prm, params = some prm →
            (prm.driver_type = b.QDF_DRIVER_TYPE_MFG →
              w2 = { w1 with global_mac_context :=
                  { w1.global_mac_context with gDriverType := prm.driver_type } }) ∧
            (prm.driver_type ≠ b.QDF_DRIVER_TYPE_MFG →
              w2.global_mac_context =
                (c.pe_start p
                  { w1.global_mac_context with gDriverType := prm.driver_type }
                  w1.ext).ctx ∧
              w2.ext =
                (c.pe_start p
                  { w1.global_mac_context with gDriverType := prm.driver_type }
                  w1.ext).ext))) ∧
        (mac_stop c p w2).1 = QDF_STATUS_SUCCESS ∧
        w3.global_mac_context =
          (c.cfg_cleanup p (c.pe_stop p w2.global_mac_context w2.ext).ctx
            (c.pe_stop p w2.global_mac_context w2.ext).ext).ctx ∧
        w3.ext =
          (c.cfg_cleanup p (c.pe_stop p w2.global_mac_context w2.ext).ctx
            (c.pe_stop p w2.global_mac_context w2.ext).ext).ext ∧
        ps = (close_view c p w3).psoc ∧
        rel = (if (close_view c p w3).pdev ≠ 0 then
            [Call.wlan_objmgr_pdev_release_ref (close_view c p w3).pdev] else []) ∧
        w4.global_mac_context =
          { close_view c p w3 with pdev := 0, mlme_cfg := 0, psoc := 0 } ∧
        w4.ext =
          (if b.WLAN_ALLOCATE_GLOBAL_BUFFERS_DYNAMICALLY then
            c.qdf_mem_free p
              (c.wlan_objmgr_psoc_release_ref ps
                (if (close_view c p w3).pdev ≠ 0 then
                  c.wlan_objmgr_pdev_release_ref (close_view c p w3).pdev (close_ext c p w3)
                  else close_ext c p w3))
            else
              c.wlan_objmgr_psoc_release_ref ps
                (if (close_view c p w3).pdev ≠ 0 then
                  c.wlan_objmgr_pdev_release_ref (close_view c p w3).pdev (close_ext c p w3)
                  else close_ext c p w3)) ∧
        w4.global_mac_context_ptr =
          (if b.WLAN_ALLOCATE_GLOBAL_BUFFERS_DYNAMICALLY then 0
            else w.global_mac_context_ptr) := by
  rcases mac_open_cases b c psoc pHalHandle hdd_handle cds_cfg w with
    ⟨_, hr, _, _⟩ | ⟨_, _, hr, _, _⟩ | ⟨_, _, _, _, _, _, hr, _, _⟩ |
    ⟨_, _, _, _, hr, _, _⟩ | ⟨_, _, _, _, _, _, _, hr, _, _⟩ |
    ⟨_, _, _, _, _, _, _, _, hr, _, _⟩ | ⟨_, _, _, s, _, _, _, hs2, hr, _, _⟩ |
    ⟨hal0, p, m, hn, hp, hm, _, hh, ha, hfr, hc⟩
  · rw [hr] at hs; cases hs
  · rw [hr] at hs; cases hs
  · rw [hr] at hs; cases hs
  · rw [hr] at hs; cases hs
  · rw [hr] at hs; cases hs
  · rw [hr] at hs; cases hs
  · rw [hr] at hs; cases hs; exact absurd rfl hs2
  · subst hn
    have hpa : p = (mac_allocate_context_buffer b c w).1 ∧
        (mac_open b c psoc (some hal0) hdd_handle cds_cfg w).world.global_mac_context_ptr =
          (mac_allocate_context_buffer b c w).2.global_mac_context_ptr := by
      rcases mac_open_effects b c psoc hal0 hdd_handle cds_cfg w _ rfl _ rfl _ rfl _ rfl with
        ⟨-, hr, -, -⟩ | ⟨-, -, hr, -, -, -, -⟩ | ⟨-, -, -, hr, -, -, -, -⟩ |
        ⟨-, -, -, -, hr, -⟩ | ⟨_, _, -, -, -, -, -, -, hr, -, -, -⟩ |
        ⟨_, _, _, -, -, -, -, -, -, ho, hr, -, -, -⟩ |
        ⟨cfg, B1, B2, -, -, -, -, -, -, -, hh2, -, -, hpt⟩
      · rw [hr] at hs; cases hs
      · rw [hr] at hs; cases hs
      · rw [hr] at hs; cases hs
      · rw [hr] at hs; cases hs
      · rw [hr] at hs; cases hs
      · rw [hr] at hs
        exact absurd (Ret.status.inj hs) ho
      · rw [hh] at hh2
        exact ⟨Option.some.inj hh2, hpt⟩
    obtain ⟨st, hst, sc, sa⟩ :=
      mac_start_run b c p params
        (mac_open b c psoc (some hal0) hdd_handle cds_cfg w).world hp ha.symm
    have se := mac_start_effects b c p params
        (mac_open b c psoc (some hal0) hdd_handle cds_cfg w).world hp ha.symm
    obtain ⟨tc, ta⟩ :=
      mac_stop_run b c p
        (mac_start b c p params (mac_open b c psoc (some hal0) hdd_handle cds_cfg w).world).2
    obtain ⟨te1, te2, te3⟩ :=
      mac_stop_effects c p
        (mac_start b c p params (mac_open b c psoc (some hal0) hdd_handle cds_cfg w).world).2
    have hv3 : p = context_addr b
        (mac_stop c p
          (mac_start b c p params
            (mac_open b c psoc (some hal0) hdd_handle cds_cfg w).world).2).2 := by
      rw [ta, sa]
    obtain ⟨k1, k2, -, -, -, -, k7⟩ := mac_close_run b c p _ hp hv3
    obtain ⟨j1, j2, j3⟩ := mac_close_effects b c p _ hp hv3
    refine ⟨p, m, st,
      (if (close_view c p
          (mac_stop c p
            (mac_start b c p params
              (mac_open b c psoc (some hal0) hdd_handle cds_cfg w).world).2).2).pdev ≠ 0 then
        [Call.wlan_objmgr_pdev_release_ref
          (close_view c p
            (mac_stop c p
              (mac_start b c p params
                (mac_open b c psoc (some hal0) hdd_handle cds_cfg w).world).2).2).pdev]
        else []),
      (close_view c p
        (mac_stop c p
          (mac_start b c p params
            (mac_open b c psoc (some hal0) hdd_handle cds_cfg w).world).2).2).psoc,
      hp, hh, hst, ?_, k1, ?_, hpa.1, ?_, ?_⟩
    · by_cases hpd :
          (close_view c p
            (mac_stop c p
              (mac_start b c p params
                (mac_open b c psoc (some hal0) hdd_handle cds_cfg w).world).2).2).pdev = 0
      · left; exact if_neg (not_not.mpr hpd)
      · right; exact ⟨_, hpd, if_pos hpd⟩
    · rw [k2, tc, sc, hc]
      simp
    · intro ho hcy hcl
      rw [k7 hcl, te1, (hcy.2.2 p _ _).2.1, (hcy.2.1 p _ _).2.1,
        mac_start_keeps_psoc b c p params _ hcy.1]
      exact (hfr ho).2.1
    · intro w1 w2 w3 w4 e1 e2 e3 e4
      subst e1 e2 e3 e4
      refine ⟨se, rfl, te1, te2, rfl, rfl, j1, j2, ?_⟩
      rw [j3, te3]
      by_cases hd : b.WLAN_ALLOCATE_GLOBAL_BUFFERS_DYNAMICALLY = true
      · simp [hd]
      · have e : (mac_start b c p params
            (mac_open b c psoc (some hal0) hdd_handle cds_cfg w).world).2.global_mac_context_ptr
            = w.global_mac_context_ptr := by
          rw [mac_start_ptr, hpa.2, alloc_ptr]
          simp [hd]
        simp [hd, e]


/-- Witness for C17: dynamic strategy with the ledger, production mode, so
`pe_start` is called.  After `mac_stop` the reference and the block are
still outstanding and the configuration store is not; after `mac_close`
nothing is outstanding and the pointer variable is null. -/
theorem full_cycle_calls_witness :
    (mac_open dynamic_build
        (ledger_collaborators 64 QDF_STATUS_SUCCESS 5 QDF_STATUS_SUCCESS QDF_STATUS_SUCCESS
          QDF_STATUS_SUCCESS)
        7 (some 0) 9 (some { driver_type := 0 }) ledger_boot_world).hal = some 64 ∧
    (mac_stop
        (ledger_collaborators 64 QDF_STATUS_SUCCESS 5 QDF_STATUS_SUCCESS QDF_STATUS_SUCCESS
          QDF_STATUS_SUCCESS) 64
        (mac_start dynamic_build
          (ledger_collaborators 64 QDF_STATUS_SUCCESS 5 QDF_STATUS_SUCCESS QDF_STATUS_SUCCESS
            QDF_STATUS_SUCCESS) 64 (some { driver_type := 0 })
          (mac_open dynamic_build
            (ledger_collaborators 64 QDF_STATUS_SUCCESS 5 QDF_STATUS_SUCCESS
              QDF_STATUS_SUCCESS QDF_STATUS_SUCCESS)
            7 (some 0) 9 (some { driver_type := 0 }) ledger_boot_world).world).2).2.ext =
      { psoc_refs := 1, blocks := 1, cfg_stores := 0 } ∧
    (mac_close dynamic_build
        (ledger_collaborators 64 QDF_STATUS_SUCCESS 5 QDF_STATUS_SUCCESS QDF_STATUS_SUCCESS
          QDF_STATUS_SUCCESS) 64
        (mac_stop
          (ledger_collaborators 64 QDF_STATUS_SUCCESS 5 QDF_STATUS_SUCCESS QDF_STATUS_SUCCESS
            QDF_STATUS_SUCCESS) 64
          (mac_start dynamic_build
            (ledger_collaborators 64 QDF_STATUS_SUCCESS 5 QDF_STATUS_SUCCESS
              QDF_STATUS_SUCCESS QDF_STATUS_SUCCESS) 64 (some { driver_type := 0 })
            (mac_open dynamic_build
              (ledger_collaborators 64 QDF_STATUS_SUCCESS 5 QDF_STATUS_SUCCESS
                QDF_STATUS_SUCCESS QDF_STATUS_SUCCESS)
              7 (some 0) 9 (some { driver_type := 0 }) ledger_boot_world).world).2).2).2.ext =
      { psoc_refs := 0, blocks := 0, cfg_stores := 0 } ∧
    (mac_close dynamic_build
        (ledger_collaborators 64 QDF_STATUS_SUCCESS 5 QDF_STATUS_SUCCESS QDF_STATUS_SUCCESS
          QDF_STATUS_SUCCESS) 64
        (mac_stop
          (ledger_collaborators 64 QDF_STATUS_SUCCESS 5 QDF_STATUS_SUCCESS QDF_STATUS_SUCCESS
            QDF_STATUS_SUCCESS) 64
          (mac_start dynamic_build
            (ledger_collaborators 64 QDF_STATUS_SUCCESS 5 QDF_STATUS_SUCCESS
              QDF_STATUS_SUCCESS QDF_STATUS_SUCCESS) 64 (some { driver_type := 0 })
            (mac_open dynamic_build
              (ledger_collaborators 64 QDF_STATUS_SUCCESS 5 QDF_STATUS_SUCCESS
                QDF_STATUS_SUCCESS QDF_STATUS_SUCCESS)
              7 (some 0) 9 (some { driver_type := 0 })
              ledger_boot_world).world).2).2).2.global_mac_context_ptr = 0 := by
  obtain ⟨p, m, st, rel, ps, -, hh, -, -, -, -, hpa, -, hall⟩ :=
    full_cycle_calls dynamic_build
      (ledger_collaborators 64 QDF_STATUS_SUCCESS 5 QDF_STATUS_SUCCESS QDF_STATUS_SUCCESS
        QDF_STATUS_SUCCESS)
      7 (some 0) 9 (some { driver_type := 0 }) (some { driver_type := 0 }) ledger_boot_world
      (by decide)
  have hp64 : p = 64 := hpa.trans rfl
  subst hp64
  obtain ⟨-, -, -, h3e, hps, -, -, h4e, h4p⟩ := hall _ _ _ _ rfl rfl rfl rfl
  refine ⟨hh, h3e.trans rfl, ?_, h4p.trans rfl⟩
  rw [h4e, hps]
  rfl

end MacInit
